import Mathlib

/-!
Verification development for the PromptDoctor browser extension
(`src/day-1/promptdoctor-extension`): a shallow embedding in Lean 4 of the
request-classification and prompt-orchestration pipeline, together with
theorems about it.

The embedding mirrors three JavaScript source files:

* `utils/prompt-orchestrator.js` — namespace `PromptOrchestrator`
* `utils/enhanced-ai-analysis.js` — namespace `EnhancedAIAnalysisEngine`
* `utils/analysis.js`             — namespace `AnalysisEngine`

Modelling conventions:

* JavaScript strings are Lean `String`s; `includes` is substring search,
  `toLowerCase`/`toUpperCase` are the ASCII case maps (the source only ever
  compares ASCII keywords).
* JavaScript regular expressions are modelled by an executable
  Brzozowski-derivative matcher (`Rx`); `RegExp.test` / `String.match`
  truthiness is existence of a matching substring (`rxSearch`), an anchored
  `^...$` pattern is a whole-string match (`rxMatchFull`).
* Fields a JavaScript object may lack are `Option`s; `x || y` on strings and
  numbers, and JavaScript truthiness, are made explicit (`jsOrS`,
  `optTruthyS`, `jsOrQ`).
* Numbers that cross the JSON boundary are rationals (`ℚ`), since the remote
  response may carry arbitrary JSON numbers.
* The one stateful input, the optional application context, is passed
  explicitly (`Option AppContext`); the network call of the LLM enhancer is
  modelled by the `RemoteOutcome` type, and `try`/`catch` by `Except`.
-/

/-! ### JavaScript string primitives -/

/-- JavaScript `s.includes(sub)`: `sub` occurs as a contiguous substring of `s`. -/
def strContains (s sub : String) : Bool := decide (sub.toList <:+: s.toList)

/-- JavaScript `a || b` on strings: the empty string is falsy. -/
def jsOrS (a b : String) : String := if a = "" then b else a

/-- JavaScript truthiness of a possibly-absent string field: present and non-empty. -/
def optTruthyS (o : Option String) : Bool :=
  match o with
  | none => false
  | some s => !(s = "")

/-- JavaScript `x || 0` on a possibly-absent numeric field. -/
def jsOrQ (o : Option ℚ) : ℚ := o.getD 0

/-- JavaScript whitespace for `trim` (the ASCII part). -/
def jsTrimWs (c : Char) : Bool :=
  c = ' ' || c = '\t' || c = '\n' || c = '\r' || c = '\x0b' || c = '\x0c'

/-- JavaScript `s.trim()`: strip whitespace from both ends. -/
def jsTrim (s : String) : String :=
  ⟨((s.toList.dropWhile jsTrimWs).reverse.dropWhile jsTrimWs).reverse⟩

/-- JavaScript `toUpperCase` on one character (ASCII, as in the source's data). -/
def jsToUpperChar (c : Char) : Char :=
  if h : 97 ≤ c.toNat ∧ c.toNat ≤ 122 then
    Char.ofNatAux (c.toNat - 32) (by unfold Nat.isValidChar; omega)
  else c

/-- JavaScript `toUpperCase` on a string. -/
def jsToUpper (s : String) : String := ⟨s.toList.map jsToUpperChar⟩

/-- JavaScript `toLowerCase` on one character (ASCII). -/
def jsToLowerChar (c : Char) : Char :=
  if h : 65 ≤ c.toNat ∧ c.toNat ≤ 90 then
    Char.ofNatAux (c.toNat + 32) (by unfold Nat.isValidChar; omega)
  else c

/-- JavaScript `toLowerCase` on a string. -/
def jsToLower (s : String) : String := ⟨s.toList.map jsToLowerChar⟩

/-! ### An executable regular-expression matcher

The source tests requests against JavaScript regular expressions.  We embed
the exact patterns over a small regex language with Brzozowski derivatives;
character classes are named (`CC`), so regexes have decidable equality and
the derivative can be kept small by collapsing duplicate alternatives. -/

/-- The character classes the source's patterns use. -/
inductive CC where
  /-- any character at all (used to make a pattern unanchored, like `[\s\S]`) -/
  | any : CC
  /-- `.` — any character except a line terminator -/
  | dot : CC
  /-- `\s` — whitespace -/
  | ws : CC
  /-- `\w` — word character -/
  | word : CC
  /-- `[\d.]` — digit or dot -/
  | digitDot : CC
deriving DecidableEq

/-- Membership test of a character class. -/
def CC.test : CC → Char → Bool
  | .any, _ => true
  | .dot, c => !(c = '\n' || c = '\r' || c = '\u2028' || c = '\u2029')
  | .ws, c => c = ' ' || c = '\t' || c = '\n' || c = '\r' || c = '\x0b' || c = '\x0c'
  | .word, c => ('a' ≤ c && c ≤ 'z') || ('A' ≤ c && c ≤ 'Z') || ('0' ≤ c && c ≤ '9') || c = '_'
  | .digitDot, c => ('0' ≤ c && c ≤ '9') || c = '.'

/-- Regular expressions. -/
inductive Rx where
  /-- matches nothing -/
  | emp : Rx
  /-- matches the empty string -/
  | eps : Rx
  /-- a literal character -/
  | lit (c : Char) : Rx
  /-- a character class -/
  | cls (cc : CC) : Rx
  /-- concatenation -/
  | cat (a b : Rx) : Rx
  /-- alternation -/
  | alt (a b : Rx) : Rx
  /-- Kleene star -/
  | star (a : Rx) : Rx
deriving DecidableEq

/-- Does the regex accept the empty string? -/
def Rx.nullable : Rx → Bool
  | .emp => false
  | .eps => true
  | .lit _ => false
  | .cls _ => false
  | .cat a b => a.nullable && b.nullable
  | .alt a b => a.nullable || b.nullable
  | .star _ => true

/-- Smart concatenation (keeps derivatives small). -/
def rcat : Rx → Rx → Rx
  | .emp, _ => .emp
  | .eps, b => b
  | _, .emp => .emp
  | a, .eps => a
  | a, b => .cat a b

/-- Smart alternation, collapsing the impossible branch and duplicates. -/
def ralt : Rx → Rx → Rx
  | .emp, b => b
  | a, .emp => a
  | a, b => if a = b then a else .alt a b

/-- Brzozowski derivative of a regex with respect to one character. -/
def Rx.deriv : Rx → Char → Rx
  | .emp, _ => .emp
  | .eps, _ => .emp
  | .lit c, x => if x = c then .eps else .emp
  | .cls cc, x => if cc.test x then .eps else .emp
  | .cat a b, x =>
      if a.nullable then ralt (rcat (a.deriv x) b) (b.deriv x)
      else rcat (a.deriv x) b
  | .alt a b, x => ralt (a.deriv x) (b.deriv x)
  | .star a, x => rcat (a.deriv x) (.star a)

/-- Does `r` match the whole character list? -/
def rxAccepts (r : Rx) (cs : List Char) : Bool := (cs.foldl Rx.deriv r).nullable

/-- The regex matching a literal string. -/
def rxLit (s : String) : Rx := s.toList.foldr (fun c r => rcat (.lit c) r) .eps

/-- Alternation of a list of regexes. -/
def rxAlts (rs : List Rx) : Rx := rs.foldr ralt .emp

/-- Alternation of literal strings, e.g. `(text|label|title)`. -/
def rxAltStrs (ss : List String) : Rx := rxAlts (ss.map rxLit)

/-- Concatenation of a list of regexes. -/
def rxCats (rs : List Rx) : Rx := rs.foldr rcat .eps

/-- `r?` — optional. -/
def rxOpt (r : Rx) : Rx := .alt .eps r

/-- `r+` — one or more. -/
def rxPlus (r : Rx) : Rx := .cat r (.star r)

/-- `\s+` -/
def rxWs1 : Rx := rxPlus (.cls .ws)

/-- `\w+` -/
def rxWord1 : Rx := rxPlus (.cls .word)

/-- `.*` -/
def rxDotStar : Rx := .star (.cls .dot)

/-- JavaScript `regex.test(s)` / truthiness of `s.match(regex)` for an
unanchored pattern: some substring of `s` matches `r`. -/
def rxSearch (r : Rx) (s : String) : Bool :=
  rxAccepts (.cat (.star (.cls .any)) (.cat r (.star (.cls .any)))) s.toList

/-- JavaScript `regex.test(s)` for a `^...$`-anchored pattern: the whole
string matches. -/
def rxMatchFull (r : Rx) (s : String) : Bool := rxAccepts r s.toList

/-- `c` counts as a word character for `\b`. -/
def isWordChar (c : Char) : Bool := CC.word.test c

/-- JavaScript `/\b(w₁|w₂|…)\b/.test(s)`: one of the literal words occurs in
`s` with no word character directly before or after the occurrence. -/
def testWordAlt (words : List String) (s : String) : Bool :=
  let cs := s.toList
  (List.range (cs.length + 1)).any fun i =>
    words.any fun w =>
      let wl := w.toList
      ((cs.drop i).take wl.length == wl)
      && (i == 0 || !isWordChar (cs.getD (i - 1) ' '))
      && !isWordChar (cs.getD (i + wl.length) ' ')

/-! ### Shared data model

The value shapes that flow through the pipeline: the local analysis record,
prompt records, and the workflow object. -/

/-- One `{type, content}` pair of `analysis.contextRelevance`. -/
structure ContextItem where
  type : String
  content : String
deriving DecidableEq

/-- The orchestrator's analysis record (`analyzeRequest` in
`prompt-orchestrator.js`). -/
structure Analysis where
  intent : String
  scope : String
  riskLevel : String
  affectedSystems : List String
  complexity : String
  requiresResearch : Bool
  suggestedPhases : List String
  contextRelevance : List ContextItem
deriving DecidableEq

/-- One `{category, question, why}` research question. -/
structure ResearchQuestion where
  category : String
  question : String
  why : String
deriving DecidableEq

/-- The analysis object of the remote (AI) response: every field may be
absent. -/
structure EnhAnalysis where
  complexity : Option String := none
  riskLevel : Option String := none
  intent : Option String := none
  scope : Option String := none
  clarity : Option String := none
  reasoning : Option String := none
deriving DecidableEq

/-- One output prompt record.  `phase` and `subPhase` may be absent (the
merge reads them as `x.phase || 0`); records appended from the remote
response may lack a title or category. -/
structure PromptRecord where
  title : String
  category : String
  phase : Option ℚ
  subPhase : Option ℚ := none
  risk : String
  content : String
  context_relevance : Option (List String) := none
  success_criteria : Option (List String) := none
  enhanced : Option Bool := none
deriving DecidableEq

/-- A prompt object of the remote response (all fields optional: the JSON is
untrusted). -/
structure EnhPrompt where
  title : Option String := none
  category : Option String := none
  phase : Option ℚ := none
  subPhase : Option ℚ := none
  risk : Option String := none
  content : Option String := none
  context_relevance : Option (List String) := none
  success_criteria : Option (List String) := none
deriving DecidableEq

/-- The parsed remote response (`parseEnhancedResponse`'s result shape).
A parse failure yields the default value, `{ prompts := [] }`. -/
structure Enhanced where
  analysis : Option EnhAnalysis := none
  sufficient : Option Bool := none
  confidence : Option ℚ := none
  changeTypes : Option (List String) := none
  riskFactors : Option (List String) := none
  clarifyingQuestions : Option (List String) := none
  prompts : List EnhPrompt := []
deriving DecidableEq

/-- The workflow object produced by `createWorkflow` and threaded through the
merge.  Fields only the merge may add carry defaults. -/
structure Workflow where
  sufficient : Bool
  confidence : ℚ
  originalRequest : String
  analysis : Analysis
  changeTypes : List String
  riskLevel : String
  riskFactors : List String
  complexity : String
  prompts : List PromptRecord
  clarifyingQuestions : Option (List String) := none
  needsClarification : Bool := false
  enhanced : Bool := false
  aiAssessment : Option EnhAnalysis := none
deriving DecidableEq

/-- The optional user-supplied application context
(`context-loader.js`'s parsed shape), all sections defaulting to empty. -/
structure AppContext where
  overview : String := ""
  techStack : List String := []
  businessRules : List String := []
  security : List String := []
  issues : List String := []
  guidelines : List String := []
  patterns : List String := []
  performance : List String := []
  environment : List (String × String) := []
  monitoring : List (String × String) := []
  deployment : String := ""
deriving DecidableEq

namespace ContextLoader

/-- `ContextLoader.isRelevant` (`context-loader.js`): the request and the
content share one of two fixed keyword lists. -/
def isRelevant (request content : String) : Bool :=
  (["api", "database", "auth", "user", "payment", "security",
    "frontend", "backend", "component", "endpoint", "table",
    "migration", "deployment", "test", "performance", "cache"].any fun k =>
      strContains request k && strContains content k)
  || (["react", "node", "express", "postgres", "redis", "docker",
       "aws", "stripe", "jwt", "graphql", "typescript"].any fun k =>
        strContains request k && strContains content k)

end ContextLoader

namespace PromptOrchestrator

/-- `detectIntent`: first keyword category (in source order) with a
substring match, else `unknown`. -/
def detectIntent (request : String) : String :=
  if ["add", "create", "new", "implement", "build", "develop", "make"].any (strContains request) then "create"
  else if ["update", "change", "modify", "edit", "alter", "adjust", "refactor"].any (strContains request) then "modify"
  else if ["fix", "repair", "debug", "solve", "resolve", "patch", "correct"].any (strContains request) then "fix"
  else if ["delete", "remove", "drop", "destroy", "eliminate", "clean"].any (strContains request) then "remove"
  else if ["optimize", "improve", "enhance", "speed up", "performance"].any (strContains request) then "optimize"
  else if ["integrate", "connect", "link", "sync", "api", "webhook"].any (strContains request) then "integrate"
  else if ["migrate", "upgrade", "move", "transfer", "port"].any (strContains request) then "migrate"
  else if ["analyze", "investigate", "check", "review", "audit", "assess"].any (strContains request) then "analyze"
  else "unknown"

/-- `detectScope`: system-wide, then feature-level, then component-level,
else `unclear`. -/
def detectScope (request : String) : String :=
  if strContains request "entire" || strContains request "all" || strContains request "whole"
      || strContains request "system" || strContains request "application" then "system-wide"
  else if strContains request "page" || strContains request "component" || strContains request "feature"
      || strContains request "endpoint" || strContains request "function" then "feature-level"
  else if strContains request "button" || strContains request "field" || strContains request "style"
      || strContains request "text" || strContains request "color" then "component-level"
  else "unclear"

/-- `assessRisk`: high-risk keywords override medium-risk keywords override
the default `low`. -/
def assessRisk (request : String) : String :=
  if ["production", "payment", "auth", "security", "delete", "drop",
      "password", "credential", "financial", "billing", "sensitive",
      "database", "migration", "schema", "user data", "personal"].any (strContains request) then "high"
  else if ["api", "integration", "update", "modify", "endpoint", "service",
           "config", "setting", "permission", "role", "workflow"].any (strContains request) then "medium"
  else "low"

/-- The system-keyword table of `detectAffectedSystems`, in source order. -/
def systemKeywords : List (String × List String) :=
  [("frontend", ["ui", "frontend", "react", "component", "page", "display", "style", "css", "layout"]),
   ("backend", ["api", "backend", "server", "endpoint", "service", "node", "express"]),
   ("database", ["database", "db", "table", "schema", "query", "sql", "postgres", "migration"]),
   ("auth", ["auth", "login", "user", "permission", "role", "jwt", "session", "oauth"]),
   ("payment", ["payment", "stripe", "billing", "subscription", "invoice", "charge"]),
   ("infrastructure", ["deploy", "aws", "docker", "ci/cd", "environment", "config"]),
   ("testing", ["test", "jest", "cypress", "coverage", "unit", "integration"])]

/-- `detectAffectedSystems`: every matching system tag, in table order;
`["general"]` if none match. -/
def detectAffectedSystems (request : String) : List String :=
  let systems := (systemKeywords.filter fun p => p.2.any (strContains request)).map (·.1)
  if systems.isEmpty then ["general"] else systems

/-- The `technicalComplexity.high` word list of `assessComplexity`. -/
def techHighWords : List String :=
  ["api", "database", "authentication", "payment", "security", "encryption", "migration", "deployment"]

/-- The accumulated numeric score of `assessComplexity` (steps 1–6 of the
source: scope, technical complexity, ambiguity, specificity, multiple
operations, length). -/
def complexityScore (request : String) : Int :=
  let requestLower := jsToLower request
  let s1 : Int :=
    if ["entire", "all", "system", "architecture", "infrastructure", "redesign", "refactor", "migrate"].any (strContains requestLower) then 3
    else if ["multiple", "several", "various", "integration", "workflow"].any (strContains requestLower) then 2
    else if ["single", "specific", "one", "just", "only", "simple"].any (strContains requestLower) then -1
    else 0
  let s2 : Int :=
    if techHighWords.any (strContains requestLower) then 2
    else if ["validation", "logic", "algorithm", "calculation", "integration", "service"].any (strContains requestLower) then 1
    else 0
  let ambiguityCount : Int :=
    (["somehow", "maybe", "probably", "might", "could", "should", "somewhere", "something"].filter (strContains requestLower)).length
  let hasSpecificValues := strContains request "\"" || strContains request "'"
  let hasSpecificTargets := testWordAlt ["button", "field", "page", "component", "function", "method", "class"] requestLower
  let hasExactInstructions := strContains requestLower "change" && strContains requestLower "to"
  let s4 : Int := if hasSpecificValues && hasSpecificTargets && hasExactInstructions then -2 else 0
  let operationCount : Int :=
    (["and", "then", "also", "plus", "with", "as well", "additionally"].filter (strContains requestLower)).length
  let s6 : Int :=
    if requestLower.length < 15 then 2
    else if requestLower.length > 200 then 1
    else 0
  s1 + s2 + ambiguityCount * 2 + s4 + operationCount + s6

/-- Pattern `update\s+(\w+\s+)?(text|label|title|message|copy|page)\s+.*(to say|to read|to display|to show|to)\s+.*(instead of|from)`. -/
def trivialRx1 : Rx :=
  rxCats [rxLit "update", rxWs1, rxOpt (rxCats [rxWord1, rxWs1]),
          rxAltStrs ["text", "label", "title", "message", "copy", "page"], rxWs1, rxDotStar,
          rxAltStrs ["to say", "to read", "to display", "to show", "to"], rxWs1, rxDotStar,
          rxAltStrs ["instead of", "from"]]

/-- Pattern `change\s+(\w+\s+)?(text|label|title|message|copy)\s+.*(to|from)`. -/
def trivialRx2 : Rx :=
  rxCats [rxLit "change", rxWs1, rxOpt (rxCats [rxWord1, rxWs1]),
          rxAltStrs ["text", "label", "title", "message", "copy"], rxWs1, rxDotStar,
          rxAltStrs ["to", "from"]]

/-- Pattern `(change|update|modify)\s+.*(text|label|title|copy|message).*(from|to)`. -/
def trivialRx3 : Rx :=
  rxCats [rxAltStrs ["change", "update", "modify"], rxWs1, rxDotStar,
          rxAltStrs ["text", "label", "title", "copy", "message"], rxDotStar,
          rxAltStrs ["from", "to"]]

/-- Pattern `fix\s+(the\s+)?typo`. -/
def trivialRx4 : Rx :=
  rxCats [rxLit "fix", rxWs1, rxOpt (rxCats [rxLit "the", rxWs1]), rxLit "typo"]

/-- Pattern `correct\s+(the\s+)?spelling`. -/
def trivialRx5 : Rx :=
  rxCats [rxLit "correct", rxWs1, rxOpt (rxCats [rxLit "the", rxWs1]), rxLit "spelling"]

/-- Pattern `change\s+(\w+\s+)?(color|background|font|style)\s+to`. -/
def trivialRx6 : Rx :=
  rxCats [rxLit "change", rxWs1, rxOpt (rxCats [rxWord1, rxWs1]),
          rxAltStrs ["color", "background", "font", "style"], rxWs1, rxLit "to"]

/-- Pattern `update\s+(\w+\s+)?(version|number)\s+to\s+[\d.]+`. -/
def trivialRx7 : Rx :=
  rxCats [rxLit "update", rxWs1, rxOpt (rxCats [rxWord1, rxWs1]),
          rxAltStrs ["version", "number"], rxWs1, rxLit "to", rxWs1, rxPlus (.cls .digitDot)]

/-- `isTrivialPattern` of `assessComplexity` (step 7): the request matches
one of the seven explicit regex patterns. -/
def isTrivialPattern (requestLower : String) : Bool :=
  rxSearch trivialRx1 requestLower || rxSearch trivialRx2 requestLower
  || rxSearch trivialRx3 requestLower || rxSearch trivialRx4 requestLower
  || rxSearch trivialRx5 requestLower || rxSearch trivialRx6 requestLower
  || rxSearch trivialRx7 requestLower

/-- `isUITextChange` of `assessComplexity`: a UI-text noun together with a
change verb or phrase. -/
def isUITextChange (requestLower : String) : Bool :=
  (strContains requestLower "text" || strContains requestLower "label"
   || strContains requestLower "title" || strContains requestLower "message"
   || strContains requestLower "copy" || strContains requestLower "typo")
  && (strContains requestLower "to say" || strContains requestLower "instead of"
      || strContains requestLower "change" || strContains requestLower "update")

/-- `hasComplexSystem` of `assessComplexity`: a high-complexity technical
keyword occurs. -/
def hasComplexSystem (requestLower : String) : Bool :=
  techHighWords.any (strContains requestLower)

/-- The final score-to-label mapping of `assessComplexity` (the floor is
`low`, never `trivial`). -/
def scoreLabel (score : Int) : String :=
  if score ≥ 6 then "high"
  else if score ≥ 3 then "medium"
  else if score ≥ 1 then "low"
  else "low"

/-- `assessComplexity` (`prompt-orchestrator.js` lines 244–341). -/
def assessComplexity (request : String) : String :=
  let requestLower := jsToLower request
  let score := complexityScore request
  if (isTrivialPattern requestLower || isUITextChange requestLower) && score < 4 then
    if !hasComplexSystem requestLower then "trivial"
    else scoreLabel score
  else scoreLabel score

/-- The analysis-shaped argument of `determineRequiredPhases`.  The merge can
call it with the remote analysis object, whose fields may all be absent, so
every field is an `Option`.  `affectedSystems` is a plain list: an absent
list is modelled as `[]`.  (In JavaScript an access on the absent list would
throw, but that access is short-circuited away unless `complexity` is
`'high'`, and the one call site with an absent list — the phase regeneration
in `mergeEnhancements` — is reached only when `complexity` is absent.) -/
structure PhaseAnalysis where
  complexity : Option String
  riskLevel : Option String
  intent : Option String
  scope : Option String
  affectedSystems : List String
deriving DecidableEq

/-- `determineRequiredPhases` (`prompt-orchestrator.js` lines 80–142): the
fixed decision table from complexity and risk to the ordered phase list. -/
def determineRequiredPhases (a : PhaseAnalysis) : List String :=
  if a.complexity = some "trivial" ∧ a.riskLevel = some "low" then
    ["planning", "implementation"]
  else if a.complexity = some "low" ∧ a.riskLevel = some "low" then
    ["planning", "implementation"]
  else if a.complexity = some "medium" ∨ a.riskLevel = some "medium" then
    (if a.intent = some "unknown" ∨ a.scope = some "unclear" ∨ a.complexity = some "medium" then
      ["research"] else [])
    ++ ["planning"]
    ++ (if a.riskLevel = some "medium" then ["validation"] else [])
    ++ ["implementation", "verification"]
  else if a.complexity = some "high" ∨ a.riskLevel = some "high" then
    ["research", "planning", "validation", "implementation", "testing", "verification"]
    ++ (if a.riskLevel = some "high" ∨ a.affectedSystems.contains "infrastructure"
          ∨ a.affectedSystems.contains "database" ∨ a.affectedSystems.contains "payment" then
        ["deployment"] else [])
  else ["planning", "implementation", "verification"]

/-- View of a full local analysis as a `determineRequiredPhases` argument. -/
def toPhaseAnalysis (a : Analysis) : PhaseAnalysis :=
  ⟨some a.complexity, some a.riskLevel, some a.intent, some a.scope, a.affectedSystems⟩

/-- `findRelevantContextSections`: context items whose keywords overlap the
request, in source order (tech stack, business rules, patterns, issues). -/
def findRelevantContextSections (ctx : AppContext) (request : String) : List ContextItem :=
  ((ctx.techStack.filter fun tech =>
      ((jsToLower tech).split (fun c => c.isWhitespace)).any fun word =>
        strContains request (jsToLower word) && word.length > 3).map
    fun tech => ContextItem.mk "tech" tech)
  ++ ((ctx.businessRules.filter fun rule =>
        ["payment", "security", "compliance", "audit", "data", "user"].any fun keyword =>
          strContains request keyword && strContains (jsToLower rule) keyword).map
      fun rule => ContextItem.mk "rule" rule)
  ++ ((ctx.patterns.filter fun pat =>
        ContextLoader.isRelevant request (jsToLower pat)).map
      fun pat => ContextItem.mk "pattern" pat)
  ++ ((ctx.issues.filter fun issue =>
        ContextLoader.isRelevant request (jsToLower issue)).map
      fun issue => ContextItem.mk "issue" issue)

/-- `analyzeRequest` (`prompt-orchestrator.js` lines 52–75): classify the
lower-cased request, then derive the suggested phases, then (when a context
is loaded) the relevant context sections. -/
def analyzeRequest (ctx : Option AppContext) (userRequest : String) : Analysis :=
  let requestLower := jsToLower userRequest
  let base : Analysis :=
    { intent := detectIntent requestLower
      scope := detectScope requestLower
      riskLevel := assessRisk requestLower
      affectedSystems := detectAffectedSystems requestLower
      complexity := assessComplexity requestLower
      requiresResearch := true
      suggestedPhases := []
      contextRelevance := [] }
  let base := { base with suggestedPhases := determineRequiredPhases (toPhaseAnalysis base) }
  match ctx with
  | none => base
  | some c => { base with contextRelevance := findRelevantContextSections c requestLower }

/-! #### Prompt content generators (`prompt-orchestrator.js`)

Each `generate*` method of the orchestrator is a pure template over the
request, the analysis and the optional application context (`this.context`
becomes an explicit `Option AppContext` argument). -/

/-- `generateSimplePlanningPrompt` (trivial changes). -/
def generateSimplePlanningPrompt (ctx : Option AppContext) (userRequest : String)
    (analysis : Analysis) : String :=
  "📋 QUICK PLANNING

TASK: \"" ++ userRequest ++ "\"
COMPLEXITY: " ++ jsToUpper analysis.complexity ++ "
RISK: " ++ jsToUpper analysis.riskLevel ++ "

📝 QUICK CHECKLIST:
1. Identify the specific change needed
2. Locate the file(s) to modify
3. Understand the current implementation
4. Plan the exact modification
5. Consider any side effects"
  ++ (if ctx.isSome ∧ 0 < analysis.contextRelevance.length then
        "\n\n📌 RELEVANT CONTEXT:"
        ++ String.join ((analysis.contextRelevance.take 2).map fun item => "\n- " ++ item.content)
      else "")
  ++ "\n\n✅ PROCEED WHEN:
- You know exactly what to change
- You understand the current code
- You've considered impacts

This is a simple change - keep it focused and clean."

/-- `generateSimpleImplementationPrompt`. -/
def generateSimpleImplementationPrompt (userRequest : String) (analysis : Analysis) : String :=
  "✏️ IMPLEMENTATION

TASK: \"" ++ userRequest ++ "\"
RISK: " ++ jsToUpper analysis.riskLevel ++ "

📋 IMPLEMENTATION STEPS:
1. Make the requested change
2. Ensure formatting is consistent
3. Test the change works
4. Check for any side effects"
  ++ (if analysis.complexity = "trivial" then
        "\n\nThis is a trivial change. Focus on:
- Making the exact change requested
- Maintaining code style
- Not breaking anything else"
      else
        "\n\n⚠️ REMEMBER:
- Follow existing patterns
- Test your change
- Document if needed
- Keep changes minimal")

/-- `generateVerificationPrompt`. -/
def generateVerificationPrompt (userRequest : String) (analysis : Analysis) : String :=
  "✅ VERIFICATION & QUALITY CHECK

ORIGINAL REQUEST: \"" ++ userRequest ++ "\"
RISK LEVEL: " ++ jsToUpper analysis.riskLevel ++ "

📋 VERIFICATION CHECKLIST:"
  ++ (if analysis.riskLevel = "high" then
        "\n1. CRITICAL CHECKS
   ⬜ No existing functionality broken
   ⬜ Security implications reviewed
   ⬜ Performance impact acceptable
   ⬜ Rollback plan available
   ⬜ All error cases handled

2. BUSINESS VALIDATION
   ⬜ Requirements fully met
   ⬜ Business rules enforced
   ⬜ Data integrity maintained
   ⬜ Compliance requirements met"
      else if analysis.riskLevel = "medium" then
        "\n1. FUNCTIONAL CHECKS
   ⬜ Change works as expected
   ⬜ No regressions introduced
   ⬜ Edge cases handled
   ⬜ Error handling in place

2. QUALITY CHECKS
   ⬜ Code follows standards
   ⬜ Tests updated/added
   ⬜ Documentation current"
      else
        "\n1. BASIC CHECKS
   ⬜ Change implemented correctly
   ⬜ No obvious issues
   ⬜ Code style consistent")
  ++ "\n\n3. FINAL REVIEW
   ⬜ Original request satisfied
   ⬜ No unintended changes
   ⬜ Ready for use

✅ SIGN-OFF CRITERIA:
- All checks passed
- System stable
- Change tested"
  ++ (if analysis.riskLevel = "high" then
        "\n- Stakeholders notified
- Monitoring active
- Rollback ready"
      else "")

/-- `generateResearchPrompt`. -/
def generateResearchPrompt (ctx : Option AppContext) (userRequest : String)
    (researchQuestions : List ResearchQuestion) (analysis : Analysis) : String :=
  "🔍 RESEARCH & DISCOVERY PHASE

ORIGINAL REQUEST: \"" ++ userRequest ++ "\"

Before taking any action, conduct thorough research to understand the full scope and implications of this change.

📋 RESEARCH CHECKLIST:
"
  ++ String.join (researchQuestions.enum.map fun p =>
        "\n" ++ toString (p.1 + 1) ++ ". " ++ p.2.question ++ "
   📌 Why: " ++ p.2.why ++ "
   ⬜ Status: [Not Started]
   📝 Findings: [Document your findings here]
")
  ++ (match ctx with
      | some c => if ¬(c.overview = "") then "\n\n🏗️ APPLICATION CONTEXT:\n" ++ c.overview ++ "\n" else ""
      | none => "")
  ++ (if 0 < analysis.contextRelevance.length then
        "\n\n⚠️ RELEVANT CONTEXT ITEMS:"
        ++ String.join (analysis.contextRelevance.map fun item =>
              "\n- [" ++ jsToUpper item.type ++ "] " ++ item.content)
      else "")
  ++ "\n\n📊 DELIVERABLES FROM THIS PHASE:
1. Complete understanding of current system state
2. List of all dependencies and integration points
3. Identified risks and mitigation strategies
4. Clear requirements and success criteria
5. Recommended implementation approach

⏱️ ESTIMATED TIME: 15-30 minutes of research

✅ COMPLETION CRITERIA:
- All research questions answered with specific findings
- No critical unknowns remaining
- Clear path forward identified

🚫 DO NOT PROCEED TO IMPLEMENTATION until this research is complete and documented."

/-- `generatePlanningPrompt`. -/
def generatePlanningPrompt (ctx : Option AppContext) (userRequest : String)
    (analysis : Analysis) : String :=
  "📐 PLANNING & ARCHITECTURE PHASE

ORIGINAL REQUEST: \"" ++ userRequest ++ "\"
RISK LEVEL: " ++ jsToUpper analysis.riskLevel ++ "
AFFECTED SYSTEMS: " ++ String.intercalate ", " analysis.affectedSystems ++ "

Based on your research findings, create a detailed implementation plan.

📋 PLANNING CHECKLIST:

1. ARCHITECTURE DECISIONS
   ⬜ Design approach chosen
   ⬜ Technology selections justified
   ⬜ Integration patterns defined
   ⬜ Data flow documented

2. IMPLEMENTATION SEQUENCE
   ⬜ Break down into atomic, reversible steps
   ⬜ Identify dependencies between steps
   ⬜ Define rollback points
   ⬜ Estimate time for each step

3. RISK MITIGATION
   ⬜ Identify potential failure points
   ⬜ Create contingency plans
   ⬜ Define success metrics
   ⬜ Plan monitoring approach
"
  ++ (match ctx with
      | some c =>
        (if 0 < c.guidelines.length then
          "\n\n📏 DEVELOPMENT GUIDELINES TO FOLLOW:"
          ++ String.join ((c.guidelines.take 5).map fun guideline => "\n- " ++ guideline)
         else "")
        ++ (if 0 < c.patterns.length then
          "\n\n🎯 RECOMMENDED PATTERNS:"
          ++ String.join ((c.patterns.take 3).map fun pat => "\n- " ++ pat)
         else "")
      | none => "")
  ++ "\n\n📊 DELIVERABLES FROM THIS PHASE:
1. Technical design document
2. Step-by-step implementation plan
3. Test plan and success criteria
4. Rollback procedures
5. Time and resource estimates

⚠️ CONSIDERATIONS:
- Ensure all changes are reversible
- Plan for graceful degradation
- Consider performance implications
- Account for edge cases

✅ COMPLETION CRITERIA:
- Plan reviewed and validated
- All stakeholder concerns addressed
- Clear implementation path with no ambiguity
- Rollback strategy documented"

/-- `generateValidationPrompt`. -/
def generateValidationPrompt (ctx : Option AppContext) (userRequest : String)
    (analysis : Analysis) : String :=
  "🛡️ PRE-IMPLEMENTATION VALIDATION

ORIGINAL REQUEST: \"" ++ userRequest ++ "\"
RISK LEVEL: " ++ jsToUpper analysis.riskLevel ++ "

Before making any changes, validate the current system state and ensure safety.

🔍 VALIDATION CHECKLIST:

1. SYSTEM STATE VERIFICATION
   ⬜ Current functionality working correctly
   ⬜ No existing errors or warnings
   ⬜ Performance metrics baseline captured
   ⬜ Recent backups verified

2. DEPENDENCY CHECK
   ⬜ All dependencies identified and documented
   ⬜ Version compatibility confirmed
   ⬜ API contracts understood
   ⬜ Integration points mapped
"
  ++ (if analysis.riskLevel = "high" then
        "\n\n3. HIGH-RISK VALIDATIONS
   ⬜ Production data backed up
   ⬜ Rollback procedure tested in staging
   ⬜ Stakeholders notified
   ⬜ Monitoring alerts configured
   ⬜ Incident response team on standby"
      else "")
  ++ (match ctx with
      | some c =>
        if 0 < c.security.length then
          "\n\n🔒 SECURITY VALIDATIONS:"
          ++ String.join ((c.security.take 3).map fun sec => "\n   ⬜ " ++ sec)
        else ""
      | none => "")
  ++ "\n\n⚠️ CRITICAL CHECKS:
- Confirm you have rollback capability
- Verify testing environment matches production
- Ensure logging is enabled for debugging
- Validate backup restoration procedure

🚫 STOP CONDITIONS:
- If any validation fails, do not proceed
- If unexpected system state discovered, investigate first
- If dependencies are unclear, research further

✅ PROCEED ONLY WHEN:
- All validations pass
- System is in known good state
- Rollback plan is tested and ready
- You have confidence in the implementation plan"

/-- `generateSetupStep`. -/
def generateSetupStep (userRequest : String) (analysis : Analysis) : String :=
  "🔧 SETUP AND SCAFFOLDING

TASK: Prepare the foundation for \"" ++ userRequest ++ "\"

📋 SETUP CHECKLIST:

1. FILE STRUCTURE
   ⬜ Create necessary directories
   ⬜ Set up file structure following project conventions
   ⬜ Initialize configuration files
   ⬜ Set up environment variables"
  ++ (if analysis.affectedSystems.contains "frontend" then
        "\n\n2. FRONTEND SETUP
   ⬜ Create component structure
   ⬜ Set up routing if needed
   ⬜ Initialize state management
   ⬜ Prepare styling files"
      else "")
  ++ (if analysis.affectedSystems.contains "backend" then
        "\n\n2. BACKEND SETUP
   ⬜ Create service structure
   ⬜ Set up route handlers
   ⬜ Initialize middleware
   ⬜ Prepare data models"
      else "")
  ++ (if analysis.affectedSystems.contains "database" then
        "\n\n2. DATABASE SETUP
   ⬜ Create migration files
   ⬜ Define schema changes
   ⬜ Set up seed data if needed
   ⬜ Prepare rollback migrations"
      else "")
  ++ "\n\n🎯 IMPLEMENTATION GUIDELINES:
- Follow existing project patterns
- Use consistent naming conventions
- Add appropriate comments
- Include error handling from the start

✅ COMPLETION CRITERIA:
- All scaffolding in place
- No breaking changes to existing code
- Structure follows project conventions
- Ready for core implementation"

/-- `generateCoreImplementationStep`. -/
def generateCoreImplementationStep (ctx : Option AppContext) (userRequest : String) : String :=
  "💻 CORE IMPLEMENTATION

TASK: Implement the main functionality for \"" ++ userRequest ++ "\"

📋 IMPLEMENTATION CHECKLIST:"
  ++ (match ctx with
      | some c =>
        if 0 < c.techStack.length then
          "\n\nTECHNOLOGY STACK TO USE:\n"
          ++ String.intercalate "\n" ((c.techStack.take 5).map fun tech => "- " ++ tech)
        else ""
      | none => "")
  ++ "\n\n1. CORE LOGIC
   ⬜ Implement main business logic
   ⬜ Add input validation
   ⬜ Include error handling
   ⬜ Add logging for debugging

2. DATA HANDLING
   ⬜ Implement data models/schemas
   ⬜ Add data validation
   ⬜ Include data transformation logic
   ⬜ Handle edge cases

3. INTEGRATION POINTS
   ⬜ Connect to existing services
   ⬜ Implement API contracts
   ⬜ Add authentication/authorization
   ⬜ Handle communication errors"
  ++ (match ctx with
      | some c =>
        if 0 < c.businessRules.length then
          "\n\n📏 BUSINESS RULES TO ENFORCE:"
          ++ String.join ((c.businessRules.take 3).map fun rule => "\n   ⬜ " ++ rule)
        else ""
      | none => "")
  ++ "\n\n⚠️ CRITICAL REQUIREMENTS:
- Maintain backward compatibility
- Include comprehensive error handling
- Follow security best practices
- Add appropriate logging
- Write self-documenting code

🧪 TESTING AS YOU GO:
- Test each component in isolation
- Verify integration points
- Check error scenarios
- Validate business rules

✅ COMPLETION CRITERIA:
- Core functionality working
- All business rules implemented
- Error handling in place
- Code follows project standards"

/-- `generateTestingPrompt`. -/
def generateTestingPrompt (ctx : Option AppContext) (userRequest : String)
    (analysis : Analysis) : String :=
  "🧪 TESTING & VERIFICATION PHASE

ORIGINAL REQUEST: \"" ++ userRequest ++ "\"
RISK LEVEL: " ++ jsToUpper analysis.riskLevel ++ "

Thoroughly test the implementation to ensure quality and reliability.

📋 TESTING CHECKLIST:

1. UNIT TESTING
   ⬜ All new functions have unit tests
   ⬜ Edge cases covered
   ⬜ Error scenarios tested
   ⬜ Mock external dependencies

2. INTEGRATION TESTING
   ⬜ API endpoints tested
   ⬜ Database operations verified
   ⬜ Service interactions validated
   ⬜ Authentication/authorization tested

3. FUNCTIONAL TESTING
   ⬜ User workflows validated
   ⬜ Business rules enforced correctly
   ⬜ Data integrity maintained
   ⬜ Performance acceptable"
  ++ (if analysis.riskLevel = "high" then
        "\n\n4. HIGH-RISK TESTING
   ⬜ Load testing performed
   ⬜ Security testing completed
   ⬜ Rollback procedure tested
   ⬜ Monitoring verified
   ⬜ Failure scenarios validated"
      else "")
  ++ (match ctx with
      | some c =>
        if 0 < c.performance.length then
          "\n\n⚡ PERFORMANCE REQUIREMENTS:"
          ++ String.join ((c.performance.take 3).map fun perf => "\n   ⬜ " ++ perf)
        else ""
      | none => "")
  ++ "\n\n🔍 REGRESSION TESTING:
- Verify existing functionality still works
- Check for unintended side effects
- Validate dependent systems
- Ensure no performance degradation

📊 TEST COVERAGE TARGETS:
- Unit test coverage: ≥ 80%
- Integration test coverage: ≥ 70%
- Critical paths: 100% coverage

✅ COMPLETION CRITERIA:
- All tests passing
- No regression issues
- Performance targets met
- Security requirements validated
- Documentation updated

🚀 READY FOR DEPLOYMENT WHEN:
- All tests green
- Code review completed
- Stakeholders approved
- Rollback plan tested"

/-- `generateDeploymentPrompt`.  (`this.context.monitoring` is always an
object in the loaded context, so its truthiness check reduces to the context
being present.) -/
def generateDeploymentPrompt (ctx : Option AppContext) (userRequest : String)
    (analysis : Analysis) : String :=
  "🚀 DEPLOYMENT & MONITORING PHASE

ORIGINAL REQUEST: \"" ++ userRequest ++ "\"
RISK LEVEL: " ++ jsToUpper analysis.riskLevel ++ "

Deploy the changes safely with proper monitoring and rollback capability.

📋 DEPLOYMENT CHECKLIST:

1. PRE-DEPLOYMENT
   ⬜ All tests passing in staging
   ⬜ Deployment window scheduled
   ⬜ Stakeholders notified
   ⬜ Rollback plan ready
   ⬜ Monitoring dashboards prepared

2. DEPLOYMENT STEPS
   ⬜ Create deployment artifacts
   ⬜ Deploy to canary/beta first
   ⬜ Monitor initial deployment
   ⬜ Gradual rollout to production
   ⬜ Full production deployment"
  ++ (match ctx with
      | some c =>
        if ¬(c.deployment = "") then "\n\n📦 DEPLOYMENT PROCESS:\n" ++ c.deployment else ""
      | none => "")
  ++ (match ctx with
      | some c =>
        "\n\n📊 MONITORING SETUP:"
        ++ String.join ((c.monitoring.take 5).map fun kv => "\n   ⬜ " ++ kv.1 ++ ": " ++ kv.2)
      | none => "")
  ++ "\n\n3. POST-DEPLOYMENT
   ⬜ Verify functionality in production
   ⬜ Monitor error rates
   ⬜ Check performance metrics
   ⬜ Validate business metrics
   ⬜ Document deployment

⚠️ MONITORING ALERTS:
- Error rate > 1% - investigate immediately
- Response time > 2x baseline - check performance
- Failed transactions - verify payment system
- Memory/CPU spike - check for leaks

🔄 ROLLBACK TRIGGERS:
- Error rate > 5%
- Critical functionality broken
- Performance degradation > 50%
- Security vulnerability detected

✅ DEPLOYMENT SUCCESS CRITERIA:
- All health checks passing
- Error rate < 0.1%
- Performance within targets
- No customer complaints
- Business metrics normal

📝 POST-DEPLOYMENT TASKS:
- Update documentation
- Notify stakeholders of success
- Schedule post-mortem if issues
- Plan follow-up improvements"

/-- `generateIntegrationStep`. -/
def generateIntegrationStep : String :=
  "🔗 INTEGRATION AND CONNECTION

Connect the new implementation with existing systems.

📋 INTEGRATION TASKS:
- Connect to existing APIs/services
- Set up data flow between components
- Configure authentication/authorization
- Establish monitoring and logging
- Test integration points thoroughly

Ensure all connections are secure and properly error-handled."

/-- `generatePreparationStep`. -/
def generatePreparationStep : String :=
  "📝 PREPARE MODIFICATIONS

Set up everything needed before making changes.

📋 PREPARATION TASKS:
- Create backup of current state
- Document current behavior
- Set up feature flags if needed
- Prepare migration scripts
- Notify affected users/systems

Ensure you can rollback if needed."

/-- `generateModificationStep`. -/
def generateModificationStep : String :=
  "✏️ APPLY MODIFICATIONS

Carefully apply the planned changes.

📋 MODIFICATION TASKS:
- Make changes incrementally
- Test after each change
- Maintain backward compatibility
- Update documentation as you go
- Monitor for immediate issues

Apply changes in small, reversible steps."

/-- `generateIsolationStep`. -/
def generateIsolationStep : String :=
  "🔍 ISOLATE AND REPRODUCE

Understand the issue completely before fixing.

📋 ISOLATION TASKS:
- Reproduce the issue consistently
- Identify root cause
- Document reproduction steps
- Check for related issues
- Understand the impact scope

Don't proceed until you fully understand the problem."

/-- `generateFixStep`. -/
def generateFixStep : String :=
  "🔧 APPLY FIX

Implement the solution to resolve the issue.

📋 FIX TASKS:
- Apply minimal fix for the root cause
- Add tests to prevent regression
- Verify fix doesn't break other features
- Document the solution
- Consider preventive measures

Ensure the fix is complete and doesn't introduce new issues."

/-- `generateGenericImplementationStep`. -/
def generateGenericImplementationStep : String :=
  "⚙️ IMPLEMENTATION

Execute the planned changes carefully.

📋 IMPLEMENTATION TASKS:
- Follow the implementation plan
- Make incremental changes
- Test continuously
- Document as you go
- Monitor for issues

Proceed methodically and safely."

/-- One `{title, risk, content}` implementation step. -/
structure ImplStep where
  title : String
  risk : String
  content : String
deriving DecidableEq

/-- `generateImplementationSteps`: the sub-steps of the implementation
phase, keyed by intent. -/
def generateImplementationSteps (ctx : Option AppContext) (userRequest : String)
    (analysis : Analysis) : List ImplStep :=
  if analysis.intent = "create" then
    [⟨"Setup and Scaffolding", "low", generateSetupStep userRequest analysis⟩,
     ⟨"Core Implementation", "medium", generateCoreImplementationStep ctx userRequest⟩,
     ⟨"Integration and Connection", "medium", generateIntegrationStep⟩]
  else if analysis.intent = "modify" then
    [⟨"Prepare Changes", "low", generatePreparationStep⟩,
     ⟨"Apply Modifications", analysis.riskLevel, generateModificationStep⟩]
  else if analysis.intent = "fix" then
    [⟨"Isolate and Reproduce", "low", generateIsolationStep⟩,
     ⟨"Apply Fix", "medium", generateFixStep⟩]
  else
    [⟨"Implementation", analysis.riskLevel, generateGenericImplementationStep⟩]

/-- `identifyRiskFactors`. -/
def identifyRiskFactors (analysis : Analysis) : List String :=
  (if analysis.riskLevel = "high" then ["High-risk operation requiring extra caution"] else [])
  ++ (if analysis.affectedSystems.contains "database" then
        ["Database changes require careful migration planning"] else [])
  ++ (if analysis.affectedSystems.contains "auth" then
        ["Authentication changes have security implications"] else [])
  ++ (if analysis.affectedSystems.contains "payment" then
        ["Payment system changes require PCI compliance"] else [])
  ++ (if analysis.scope = "system-wide" then ["System-wide changes have broad impact"] else [])
  ++ (if analysis.complexity = "high" then
        ["High complexity requires careful planning and testing"] else [])

/-- `generateResearchQuestions` (`prompt-orchestrator.js` lines 396–520). -/
def generateResearchQuestions (userRequest : String) (analysis : Analysis) :
    List ResearchQuestion :=
  let _ := userRequest
  [⟨"current_state",
    "What is the current implementation/state of the "
      ++ String.intercalate ", " analysis.affectedSystems
      ++ " system(s) that will be affected by this change?",
    "Understanding the existing implementation prevents breaking changes and ensures compatibility"⟩]
  ++ (if analysis.intent = "create" then
        [⟨"requirements",
          "What are the specific functional and non-functional requirements for this new feature?",
          "Clear requirements prevent scope creep and ensure the implementation meets actual needs"⟩,
         ⟨"integration",
          "How will this new feature integrate with existing systems and workflows?",
          "Planning integration points early prevents architectural conflicts"⟩]
      else if analysis.intent = "modify" then
        [⟨"dependencies",
          "What components, services, or features depend on the current implementation?",
          "Identifying dependencies prevents cascade failures"⟩,
         ⟨"migration",
          "Will this change require data migration or backwards compatibility considerations?",
          "Planning for migration ensures smooth transitions without data loss"⟩]
      else if analysis.intent = "fix" then
        [⟨"root_cause",
          "What is the root cause of the issue, and what are its symptoms vs underlying problems?",
          "Fixing root causes prevents recurring issues"⟩,
         ⟨"impact",
          "What is the scope of impact of this bug, and who/what is affected?",
          "Understanding impact helps prioritize and plan the fix appropriately"⟩]
      else if analysis.intent = "remove" then
        [⟨"dependencies",
          "What systems, features, or data depend on what is being removed?",
          "Ensuring safe removal without breaking dependencies"⟩,
         ⟨"alternatives",
          "What alternatives or migrations paths exist for users of the removed functionality?",
          "Providing migration paths ensures continuity for users"⟩]
      else if analysis.intent = "optimize" then
        [⟨"metrics",
          "What are the current performance metrics and what are the target improvements?",
          "Establishing baselines ensures optimization efforts are measurable"⟩,
         ⟨"bottlenecks",
          "What are the identified bottlenecks and their root causes?",
          "Targeting actual bottlenecks ensures effective optimization"⟩]
      else [])
  ++ (if 0 < analysis.contextRelevance.length then
        (let rules := analysis.contextRelevance.filter fun r => r.type = "rule"
         if 0 < rules.length then
           [⟨"compliance",
             "How will this change comply with the following business rules: "
               ++ String.intercalate "; " (rules.map (·.content)) ++ "?",
             "Ensuring compliance with established business rules and regulations"⟩]
         else [])
        ++ (let issues := analysis.contextRelevance.filter fun r => r.type = "issue"
            if 0 < issues.length then
              [⟨"constraints",
                "How will you handle these known constraints: "
                  ++ String.intercalate "; " (issues.map (·.content)) ++ "?",
                "Accounting for known issues prevents predictable failures"⟩]
            else [])
      else [])
  ++ (if analysis.riskLevel = "high" then
        [⟨"rollback",
          "What is the rollback plan if this change causes issues in production?",
          "Having a rollback plan ensures quick recovery from potential failures"⟩,
         ⟨"testing",
          "What testing strategy will validate this high-risk change before deployment?",
          "Comprehensive testing reduces the risk of production issues"⟩]
      else [])
  ++ (if analysis.affectedSystems.contains "auth" ∨ analysis.affectedSystems.contains "payment"
        ∨ analysis.riskLevel = "high" then
        [⟨"security",
          "What security implications does this change have, and how will they be addressed?",
          "Proactive security consideration prevents vulnerabilities"⟩]
      else [])

/-- The implementation records of one multi-step implementation phase:
shared phase ordinal `n`, sub-phase `i + 1` when there is more than one
step.  The counter is a natural number in the source (it starts at 1 and
only ever gets `+ 1`), cast into the rational `phase` field of the
record. -/
def mkImplRecords (analysis : Analysis) (steps : List ImplStep) (n : Nat) : List PromptRecord :=
  steps.enum.map fun p =>
    { title :=
        if 1 < steps.length then
          "Implementation Step " ++ toString (p.1 + 1) ++ ": " ++ p.2.title
        else "Implementation: " ++ p.2.title
      category := "implementation"
      phase := some (n : ℚ)
      subPhase := if 1 < steps.length then some ((p.1 + 1 : Nat) : ℚ) else none
      risk := jsOrS p.2.risk analysis.riskLevel
      content := p.2.content }

/-- The phase loop of `createWorkflow` (`prompt-orchestrator.js` lines
539–634): walk the suggested phases with the running `phaseNumber`,
emitting the records of each recognized phase.  A phase name outside the
switch emits nothing and leaves the counter unchanged. -/
def buildWorkflowPrompts (ctx : Option AppContext) (userRequest : String)
    (analysis : Analysis) (researchQuestions : List ResearchQuestion) :
    List String → Nat → List PromptRecord
  | [], _ => []
  | ph :: rest, n =>
    if ph = "research" then
      { title := "Research & Discovery Phase", category := "research", phase := some (n : ℚ),
        risk := "low",
        content := generateResearchPrompt ctx userRequest researchQuestions analysis }
      :: buildWorkflowPrompts ctx userRequest analysis researchQuestions rest (n + 1)
    else if ph = "planning" then
      { title := if analysis.complexity = "trivial" then "Quick Planning"
                 else "Planning & Architecture Phase",
        category := "planning", phase := some (n : ℚ), risk := "low",
        content := if analysis.complexity = "trivial" then
            generateSimplePlanningPrompt ctx userRequest analysis
          else generatePlanningPrompt ctx userRequest analysis }
      :: buildWorkflowPrompts ctx userRequest analysis researchQuestions rest (n + 1)
    else if ph = "validation" then
      { title := "Pre-Implementation Validation", category := "validation", phase := some (n : ℚ),
        risk := analysis.riskLevel,
        content := generateValidationPrompt ctx userRequest analysis }
      :: buildWorkflowPrompts ctx userRequest analysis researchQuestions rest (n + 1)
    else if ph = "implementation" then
      if analysis.complexity = "trivial" ∨ analysis.complexity = "low" then
        { title := "Implementation", category := "implementation", phase := some (n : ℚ),
          risk := analysis.riskLevel,
          content := generateSimpleImplementationPrompt userRequest analysis }
        :: buildWorkflowPrompts ctx userRequest analysis researchQuestions rest (n + 1)
      else
        mkImplRecords analysis (generateImplementationSteps ctx userRequest analysis) n
        ++ buildWorkflowPrompts ctx userRequest analysis researchQuestions rest (n + 1)
    else if ph = "testing" then
      { title := "Testing Phase", category := "testing", phase := some (n : ℚ), risk := "medium",
        content := generateTestingPrompt ctx userRequest analysis }
      :: buildWorkflowPrompts ctx userRequest analysis researchQuestions rest (n + 1)
    else if ph = "verification" then
      { title := "Verification & Quality Check", category := "verification", phase := some (n : ℚ),
        risk := analysis.riskLevel,
        content := generateVerificationPrompt userRequest analysis }
      :: buildWorkflowPrompts ctx userRequest analysis researchQuestions rest (n + 1)
    else if ph = "deployment" then
      { title := "Deployment & Monitoring Phase", category := "deployment", phase := some (n : ℚ),
        risk := "high",
        content := generateDeploymentPrompt ctx userRequest analysis }
      :: buildWorkflowPrompts ctx userRequest analysis researchQuestions rest (n + 1)
    else
      buildWorkflowPrompts ctx userRequest analysis researchQuestions rest n

/-- `createWorkflow` (`prompt-orchestrator.js` lines 525–637). -/
def createWorkflow (ctx : Option AppContext) (userRequest : String) (analysis : Analysis)
    (researchQuestions : List ResearchQuestion) : Workflow :=
  { sufficient := true
    confidence := (0.85 : ℚ)
    originalRequest := userRequest
    analysis := analysis
    changeTypes := analysis.affectedSystems
    riskLevel := analysis.riskLevel
    riskFactors := identifyRiskFactors analysis
    complexity := analysis.complexity
    prompts := buildWorkflowPrompts ctx userRequest analysis researchQuestions
                 analysis.suggestedPhases 1 }

/-- `orchestrateRequest` without an API key (the `enhanceWithAI` branch is
the identity in the source): analyze, generate the research questions,
create the workflow. -/
def orchestrateRequest (ctx : Option AppContext) (userRequest : String) : Workflow :=
  let analysis := analyzeRequest ctx userRequest
  let researchQuestions := generateResearchQuestions userRequest analysis
  createWorkflow ctx userRequest analysis researchQuestions

end PromptOrchestrator

/-! ### JSON values and parsing (`enhanced-ai-analysis.js`)

`parseEnhancedResponse` extracts the first-`{`-to-last-`}` slice of the
model's text (the regex `/\{[\s\S]*\}/`) and runs `JSON.parse` on it.  We
model JSON values and an executable fuel-indexed parser for them. -/

/-- A JSON value.  Numbers are rationals; object fields are kept in source
order (on lookup the last occurrence of a key wins, as in `JSON.parse`). -/
inductive Json where
  | null : Json
  | bool (b : Bool) : Json
  | num (q : ℚ) : Json
  | str (s : String) : Json
  | arr (elems : List Json) : Json
  | obj (fields : List (String × Json)) : Json

/-- Skip JSON whitespace. -/
def jsonSkipWs : List Char → List Char
  | c :: cs => if c = ' ' || c = '\t' || c = '\n' || c = '\r' then jsonSkipWs cs else c :: cs
  | [] => []

/-- Expect a literal keyword such as `ull` after the `n` of `null`. -/
def jsonExpect : List Char → List Char → Option (List Char)
  | [], cs => some cs
  | k :: ks, c :: cs => if c = k then jsonExpect ks cs else none
  | _ :: _, [] => none

/-- Span of decimal digits. -/
def jsonDigits : List Char → List Char × List Char
  | c :: cs =>
    if '0' ≤ c ∧ c ≤ '9' then
      let (ds, rest) := jsonDigits cs
      (c :: ds, rest)
    else ([], c :: cs)
  | [] => ([], [])

/-- Value of a digit string. -/
def digitsVal (ds : List Char) : Nat := ds.foldl (fun a c => a * 10 + (c.toNat - 48)) 0

/-- Fuel-indexed Euclidean algorithm.  `Nat.gcd` is defined by well-founded
recursion, which the kernel does not unfold; with the fuel made explicit the
same recursion becomes structural and evaluates on concrete inputs.  Any
fuel at least the first argument gives `Nat.gcd` (`gcdFuel_eq`). -/
def gcdFuel : Nat → Nat → Nat → Nat
  | 0, _, n => n
  | _ + 1, 0, n => n
  | fuel + 1, m + 1, n => gcdFuel fuel (n % (m + 1)) (m + 1)

theorem gcdFuel_eq (fuel m n : Nat) (h : m ≤ fuel) : gcdFuel fuel m n = Nat.gcd m n := by
  induction fuel generalizing m n with
  | zero =>
    obtain rfl : m = 0 := Nat.le_zero.mp h
    rw [Nat.gcd_zero_left]
    rfl
  | succ f ih =>
    cases m with
    | zero =>
      rw [Nat.gcd_zero_left]
      rfl
    | succ m =>
      have hm : n % (m + 1) ≤ f :=
        le_trans (Nat.le_of_lt_succ (Nat.mod_lt n (Nat.succ_pos m))) (Nat.le_of_succ_le_succ h)
      show gcdFuel f (n % (m + 1)) (m + 1) = Nat.gcd (m + 1) n
      rw [ih _ _ hm, Nat.gcd_succ]

/-- `mkRat` with the gcd computed by `gcdFuel`, so that parsed JSON numbers
evaluate under kernel reduction; `ratMk_eq_mkRat` shows it is `mkRat`. -/
def ratMk (num : Int) (den : Nat) : ℚ :=
  if den_nz : den = 0 then { num := 0 }
  else
    Rat.maybeNormalize num den (gcdFuel num.natAbs num.natAbs den)
      (Rat.normalize.den_nz den_nz (gcdFuel_eq _ _ _ le_rfl))
      (Rat.normalize.reduced den_nz (gcdFuel_eq _ _ _ le_rfl))

theorem ratMk_eq_mkRat (num : Int) (den : Nat) : ratMk num den = mkRat num den := by
  unfold ratMk mkRat Rat.normalize
  split_ifs with h
  · rfl
  · have hg := gcdFuel_eq num.natAbs num.natAbs den le_rfl
    congr 1

/-- Parse a JSON number (grammar `-?int frac? exp?`, no leading zeros). -/
def jsonParseNum (cs : List Char) : Option (ℚ × List Char) := do
  let (neg, cs) := match cs with
    | '-' :: cs' => (true, cs')
    | _ => (false, cs)
  let (ints, cs) := jsonDigits cs
  if ints.isEmpty then none else
  if 1 < ints.length ∧ ints.headD ' ' = '0' then none else
  let (frac, cs) := match cs with
    | '.' :: cs' =>
      let (ds, rest) := jsonDigits cs'
      (some ds, rest)
    | _ => (none, cs)
  match frac with
  | some [] => none
  | _ =>
  let (expo, cs) ← match cs with
    | 'e' :: cs' | 'E' :: cs' =>
      let (esign, cs'') := match cs' with
        | '+' :: t => (1, t)
        | '-' :: t => (-1, t)
        | t => (1, t)
      let (eds, rest) := jsonDigits cs''
      if eds.isEmpty then none else some (some ((esign : Int) * digitsVal eds), rest)
    | _ => some (none, cs)
  let fracDs := frac.getD []
  let mantNum : Int := (if neg then -1 else 1) *
    ((digitsVal ints : Int) * (10 : Int) ^ fracDs.length + (digitsVal fracDs : Int))
  let numden : Int × Nat := match expo with
    | none => (mantNum, (10 : Nat) ^ fracDs.length)
    | some e =>
      if 0 ≤ e then (mantNum * (10 : Int) ^ e.toNat, (10 : Nat) ^ fracDs.length)
      else (mantNum, (10 : Nat) ^ fracDs.length * (10 : Nat) ^ (-e).toNat)
  some (ratMk numden.1 numden.2, cs)

/-- Parse the body of a JSON string after the opening quote (fuelled). -/
def jsonParseStr : Nat → List Char → Option (List Char × List Char)
  | 0, _ => none
  | _ + 1, [] => none
  | fuel + 1, c :: cs =>
    if c = '"' then some ([], cs)
    else if c = '\\' then
      match cs with
      | [] => none
      | e :: cs' =>
        if e = 'u' then
          match cs' with
          | h1 :: h2 :: h3 :: h4 :: cs'' =>
            let hv : Char → Option Nat := fun h =>
              if '0' ≤ h ∧ h ≤ '9' then some (h.toNat - 48)
              else if 'a' ≤ h ∧ h ≤ 'f' then some (h.toNat - 87)
              else if 'A' ≤ h ∧ h ≤ 'F' then some (h.toNat - 55)
              else none
            match hv h1, hv h2, hv h3, hv h4 with
            | some v1, some v2, some v3, some v4 =>
              let n := ((v1 * 16 + v2) * 16 + v3) * 16 + v4
              if h : n < 55296 then
                (jsonParseStr fuel cs'').map fun p =>
                  (Char.ofNatAux n (by unfold Nat.isValidChar; omega) :: p.1, p.2)
              else if h2 : 57344 ≤ n ∧ n < 1114112 then
                (jsonParseStr fuel cs'').map fun p =>
                  (Char.ofNatAux n (by unfold Nat.isValidChar; omega) :: p.1, p.2)
              else none
            | _, _, _, _ => none
          | _ => none
        else
          let esc : Option Char :=
            if e = '"' then some '"'
            else if e = '\\' then some '\\'
            else if e = '/' then some '/'
            else if e = 'b' then some '\x08'
            else if e = 'f' then some '\x0c'
            else if e = 'n' then some '\n'
            else if e = 'r' then some '\r'
            else if e = 't' then some '\t'
            else none
          match esc with
          | some ch => (jsonParseStr fuel cs').map fun p => (ch :: p.1, p.2)
          | none => none
    else if c.toNat < 32 then none
    else (jsonParseStr fuel cs).map fun p => (c :: p.1, p.2)

mutual

/-- Parse one JSON value (fuelled). -/
def jsonParseVal : Nat → List Char → Option (Json × List Char)
  | 0, _ => none
  | fuel + 1, cs =>
    match jsonSkipWs cs with
    | [] => none
    | c :: rest =>
      if c = 'n' then (jsonExpect "ull".toList rest).map fun r => (.null, r)
      else if c = 't' then (jsonExpect "rue".toList rest).map fun r => (.bool true, r)
      else if c = 'f' then (jsonExpect "alse".toList rest).map fun r => (.bool false, r)
      else if c = '"' then (jsonParseStr (rest.length + 1) rest).map fun p => (.str ⟨p.1⟩, p.2)
      else if c = '[' then
        match jsonSkipWs rest with
        | ']' :: r => some (.arr [], r)
        | r => (jsonParseArrItems fuel r).map fun p => (.arr p.1, p.2)
      else if c = '{' then
        match jsonSkipWs rest with
        | '}' :: r => some (.obj [], r)
        | r => (jsonParseObjItems fuel r).map fun p => (.obj p.1, p.2)
      else (jsonParseNum (c :: rest))
             |>.map fun p => (.num p.1, p.2)

/-- Parse the items of a non-empty JSON array, from the first item on. -/
def jsonParseArrItems : Nat → List Char → Option (List Json × List Char)
  | 0, _ => none
  | fuel + 1, cs => do
    let (v, cs) ← jsonParseVal fuel cs
    match jsonSkipWs cs with
    | ',' :: r =>
      let (vs, r') ← jsonParseArrItems fuel r
      some (v :: vs, r')
    | ']' :: r => some ([v], r)
    | _ => none

/-- Parse the fields of a non-empty JSON object, from the first field on. -/
def jsonParseObjItems : Nat → List Char → Option (List (String × Json) × List Char)
  | 0, _ => none
  | fuel + 1, cs => do
    match jsonSkipWs cs with
    | '"' :: r => do
      let (k, cs) ← jsonParseStr (r.length + 1) r
      match jsonSkipWs cs with
      | ':' :: cs' => do
        let (v, cs'') ← jsonParseVal fuel cs'
        match jsonSkipWs cs'' with
        | ',' :: r' =>
          let (fs, rest) ← jsonParseObjItems fuel r'
          some ((⟨k⟩, v) :: fs, rest)
        | '}' :: r' => some ([(⟨k⟩, v)], r')
        | _ => none
      | _ => none
    | _ => none

end

/-- `JSON.parse`: parse the whole string as one JSON value (with the
character count as fuel, which any input respects). -/
def parseJson (s : String) : Option Json :=
  let cs := s.toList
  match jsonParseVal (cs.length + 1) cs with
  | some (j, rest) => if (jsonSkipWs rest).isEmpty then some j else none
  | none => none

/-- Field lookup on a JSON object (absent on other values); as in
`JSON.parse`, the last occurrence of a duplicated key wins. -/
def jGet (j : Json) (key : String) : Option Json :=
  match j with
  | .obj fields => fields.foldl (fun acc f => if f.1 = key then some f.2 else acc) none
  | _ => none

/-- A string-valued field. -/
def jStr? (o : Option Json) : Option String :=
  match o with
  | some (.str s) => some s
  | _ => none

/-- A number-valued field. -/
def jNum? (o : Option Json) : Option ℚ :=
  match o with
  | some (.num q) => some q
  | _ => none

/-- A boolean-valued field. -/
def jBool? (o : Option Json) : Option Bool :=
  match o with
  | some (.bool b) => some b
  | _ => none

/-- An array-of-strings field (entries of other types are dropped; the
source never reads them). -/
def jStrList? (o : Option Json) : Option (List String) :=
  match o with
  | some (.arr es) => some (es.filterMap fun e => jStr? (some e))
  | _ => none

namespace EnhancedAIAnalysisEngine

/-- The remote analysis object, field by field (non-string field values are
not modelled: the source only ever compares these fields with strings). -/
def toEnhAnalysis (j : Json) : EnhAnalysis :=
  { complexity := jStr? (jGet j "complexity")
    riskLevel := jStr? (jGet j "riskLevel")
    intent := jStr? (jGet j "intent")
    scope := jStr? (jGet j "scope")
    clarity := jStr? (jGet j "clarity")
    reasoning := jStr? (jGet j "reasoning") }

/-- One remote prompt object, field by field. -/
def toEnhPrompt (j : Json) : EnhPrompt :=
  { title := jStr? (jGet j "title")
    category := jStr? (jGet j "category")
    phase := jNum? (jGet j "phase")
    subPhase := jNum? (jGet j "subPhase")
    risk := jStr? (jGet j "risk")
    content := jStr? (jGet j "content")
    context_relevance := jStrList? (jGet j "context_relevance")
    success_criteria := jStrList? (jGet j "success_criteria") }

/-- `parseEnhancedResponse` (`enhanced-ai-analysis.js` lines 351–371):
extract the `/\{[\s\S]*\}/` slice (first `{` to last `}`), `JSON.parse` it,
and require a `prompts` array; any failure is caught and yields
`{ prompts: [] }` — the default `Enhanced` value. -/
def extractJsonSlice (s : String) : Option String :=
  let cs := s.toList
  match cs.findIdx? (· = '{') with
  | none => none
  | some i =>
    match cs.reverse.findIdx? (· = '}') with
    | none => none
    | some rj =>
      let j := cs.length - 1 - rj
      if i < j then some ⟨(cs.drop i).take (j - i + 1)⟩ else none

/-- `parseEnhancedResponse`: see `extractJsonSlice`. -/
def parseEnhancedResponse (responseText : String) : Enhanced :=
  match extractJsonSlice responseText with
  | none => {}
  | some slice =>
    match parseJson slice with
    | none => {}
    | some parsed =>
      match jGet parsed "prompts" with
      | some (.arr ps) =>
        { analysis :=
            match jGet parsed "analysis" with
            | some (Json.obj fs) => some (toEnhAnalysis (Json.obj fs))
            | _ => none
          sufficient := jBool? (jGet parsed "sufficient")
          confidence := jNum? (jGet parsed "confidence")
          changeTypes := jStrList? (jGet parsed "changeTypes")
          riskFactors := jStrList? (jGet parsed "riskFactors")
          clarifyingQuestions := jStrList? (jGet parsed "clarifyingQuestions")
          prompts := ps.map toEnhPrompt }
      | _ => {}

/-- `generateClarificationPrompt` (`enhanced-ai-analysis.js` lines 799–827). -/
def generateClarificationPrompt (originalRequest : String) (questions : List String) : String :=
  "🤔 CLARIFICATION NEEDED

Your request: \"" ++ originalRequest ++ "\"

This request needs more specific details to ensure safe and accurate implementation. Please provide answers to the following questions:

" ++ String.intercalate "\n" (questions.enum.map fun p => toString (p.1 + 1) ++ ". " ++ p.2) ++ "

📝 HOW TO PROCEED:
1. Answer the questions above to clarify your requirements
2. Provide specific examples if possible
3. Include any constraints or dependencies
4. Mention any existing systems that will be affected

⚠️ WHY THIS MATTERS:
- Vague requests can lead to incorrect implementations
- Clarification prevents wasted effort and potential bugs
- Specific requirements ensure the solution meets your needs
- Understanding the full context helps assess risks properly

Once you provide these details, I can generate a proper implementation plan with:
- Appropriate safety checks
- Correct risk assessment
- Specific implementation steps
- Relevant testing procedures

Please update your request with the additional information and try again."

/-- The `(phase || 0, category)` key of a remote prompt, as in the template
string `` `${prompt.phase || 0}-${prompt.category}` `` (an absent category
prints as `undefined`). -/
def enhKey (p : EnhPrompt) : ℚ × String := (jsOrQ p.phase, p.category.getD "undefined")

/-- The `(phase || 0, category)` key of a workflow prompt record. -/
def recKey (p : PromptRecord) : ℚ × String := (jsOrQ p.phase, p.category)

/-- The record pushed for a remote prompt that matched no local one:
`{...prompt, enhanced: true}`. -/
def enhPromptToRecord (p : EnhPrompt) : PromptRecord :=
  { title := p.title.getD ""
    category := p.category.getD "undefined"
    phase := p.phase
    subPhase := p.subPhase
    risk := p.risk.getD ""
    content := p.content.getD ""
    context_relevance := p.context_relevance
    success_criteria := p.success_criteria
    enhanced := some true }

/-- The sort relation of `workflow.prompts.sort(...)`: ascending in
`phase || 0`, then in `subPhase || 0`. -/
def promptLE (a b : PromptRecord) : Prop :=
  jsOrQ a.phase < jsOrQ b.phase ∨ (jsOrQ a.phase = jsOrQ b.phase ∧ jsOrQ a.subPhase ≤ jsOrQ b.subPhase)

instance : DecidableRel promptLE := fun a b => by unfold promptLE; infer_instance

instance : IsTotal PromptRecord promptLE :=
  ⟨fun a b => by
    unfold promptLE
    rcases lt_trichotomy (jsOrQ a.phase) (jsOrQ b.phase) with h | h | h
    · exact Or.inl (Or.inl h)
    · rcases le_total (jsOrQ a.subPhase) (jsOrQ b.subPhase) with h' | h'
      · exact Or.inl (Or.inr ⟨h, h'⟩)
      · exact Or.inr (Or.inr ⟨h.symm, h'⟩)
    · exact Or.inr (Or.inl h)⟩

instance : IsTrans PromptRecord promptLE :=
  ⟨fun a b c hab hbc => by
    unfold promptLE at *
    rcases hab with h1 | ⟨e1, s1⟩
    · rcases hbc with h2 | ⟨e2, s2⟩
      · exact Or.inl (h1.trans h2)
      · exact Or.inl (e2 ▸ h1)
    · rcases hbc with h2 | ⟨e2, s2⟩
      · exact Or.inl (e1 ▸ h2)
      · exact Or.inr ⟨e1.trans e2, s1.trans s2⟩⟩

/-- The content set on the collapsed planning record. -/
def collapsePlanningContent (originalRequest : String) : String :=
  "Plan the simple text change: \"" ++ originalRequest ++ "\"\n        \n1. Identify the exact location where the text needs to be changed
2. Determine the current text value
3. Replace with the new text value
4. Verify no other locations need the same change"

/-- The content set on the collapsed implementation record. -/
def collapseImplementationContent (originalRequest : String) : String :=
  "Execute the text change: \"" ++ originalRequest ++ "\"

1. Locate the file containing the text to be changed
2. Find the exact line with the current text
3. Replace the old text with the new text
4. Save the file
5. Test that the change appears correctly"

/-- The anti-override guard condition of `mergeEnhancements`
(`enhanced-ai-analysis.js` lines 379–390): the orchestrator said trivial,
the remote proposes a (truthy) non-trivial complexity, and the request
carries text-change vocabulary. -/
def mergeAntiOverrideGuard (workflow : Workflow) (ea0 : EnhAnalysis) : Bool :=
  let orchestratorSaysTrivial := workflow.analysis.complexity = "trivial"
  let aiSaysHigherComplexity :=
    optTruthyS ea0.complexity && !(ea0.complexity = some "trivial")
  let isLikelyTextChange :=
    !(workflow.originalRequest = "")
    && (strContains (jsToLower workflow.originalRequest) "text"
        || strContains (jsToLower workflow.originalRequest) "label"
        || strContains (jsToLower workflow.originalRequest) "to say"
        || strContains (jsToLower workflow.originalRequest) "instead of")
  orchestratorSaysTrivial && aiSaysHigherComplexity && isLikelyTextChange

/-- Step 1 of `mergeEnhancements` (`enhanced-ai-analysis.js` lines
376–413): the analysis override with its anti-override guard and possible
phase regeneration.  Returns the updated workflow together with the
(possibly guard-mutated) remote analysis object, which the final
`aiAssessment` mark uses.

Two modelling notes.  The object spread `{...workflow.analysis,
...enhanced.analysis}` also copies the remote-only `clarity` and `reasoning`
keys onto the local analysis object; the local `Analysis` record has no such
fields and no later code reads them, so they are dropped.  The phase
regeneration passes the remote analysis object, which has no
`affectedSystems`, to `determineRequiredPhases`; see `PhaseAnalysis`. -/
def mergeStepAnalysis (workflow : Workflow) (enhanced : Enhanced) :
    Workflow × Option EnhAnalysis :=
  match enhanced.analysis with
  | none => (workflow, none)
  | some ea0 =>
    let ea :=
      if mergeAntiOverrideGuard workflow ea0 then
        { ea0 with complexity := some "trivial", riskLevel := some "low" }
      else ea0
    let mergedAnalysis : Analysis :=
      { workflow.analysis with
        complexity := ea.complexity.getD workflow.analysis.complexity
        riskLevel := ea.riskLevel.getD workflow.analysis.riskLevel
        intent := ea.intent.getD workflow.analysis.intent
        scope := ea.scope.getD workflow.analysis.scope }
    let w := { workflow with
      analysis := mergedAnalysis
      complexity := jsOrS (ea.complexity.getD "") workflow.complexity
      riskLevel := jsOrS (ea.riskLevel.getD "") workflow.riskLevel }
    let w :=
      if ¬(ea.complexity = some mergedAnalysis.complexity) then
        { w with analysis := { mergedAnalysis with suggestedPhases :=
            (PromptOrchestrator.determineRequiredPhases
              ⟨ea.complexity, ea.riskLevel, ea.intent, ea.scope, []⟩) } }
      else w
    (w, some ea)

/-- Steps 2–4 of `mergeEnhancements`, in source order: adopt the remote
confidence, risk factors and change types; record non-empty clarifying
questions (forcing `sufficient: false`); and, for an insufficient response
with questions, prepend the phase-0 clarification record. -/
def mergeStepMeta (workflow : Workflow) (enhanced : Enhanced) : Workflow :=
  let workflow :=
    match enhanced.confidence with
    | some c => { workflow with confidence := c }
    | none => workflow
  let workflow :=
    match enhanced.riskFactors with
    | some rf => { workflow with riskFactors := rf }
    | none => workflow
  let workflow :=
    match enhanced.changeTypes with
    | some ct => { workflow with changeTypes := ct }
    | none => workflow
  let workflow :=
    if 0 < (enhanced.clarifyingQuestions.getD []).length then
      { workflow with clarifyingQuestions := enhanced.clarifyingQuestions, sufficient := false }
    else workflow
  if enhanced.sufficient = some false then
    let w : Workflow := { workflow with sufficient := false, needsClarification := true }
    if 0 < (w.clarifyingQuestions.getD []).length then
      { w with prompts :=
          { title := "Clarification Needed"
            category := "clarification"
            phase := some 0
            risk := "low"
            content := generateClarificationPrompt w.originalRequest (w.clarifyingQuestions.getD [])
            enhanced := some true } :: w.prompts }
    else w
  else workflow

/-- Steps 6–8 of `mergeEnhancements` (reached only when the remote prompt
list is non-empty): enhance matching local prompts by `(phase, category)`
key, append remote prompts whose key is new, and sort by
`(phase, subPhase)`. -/
def mergeStepPrompts (workflow : Workflow) (enhanced : Enhanced) : Workflow :=
  let lookupEnh : ℚ × String → Option EnhPrompt := fun k =>
    enhanced.prompts.foldl (fun acc p => if enhKey p = k then some p else acc) none
  let workflow := { workflow with prompts :=
    (workflow.prompts.map fun originalPrompt =>
      match lookupEnh (recKey originalPrompt) with
      | some enhancement =>
        { originalPrompt with
          content := jsOrS (enhancement.content.getD "") originalPrompt.content
          context_relevance := some (enhancement.context_relevance.getD [])
          success_criteria := some (enhancement.success_criteria.getD [])
          enhanced := some true }
      | none => originalPrompt) }
  let workflow := { workflow with prompts :=
    (enhanced.prompts.foldl (fun acc p =>
      if acc.any fun q => recKey q = enhKey p then acc
      else acc ++ [enhPromptToRecord p]) workflow.prompts) }
  { workflow with prompts := List.insertionSort promptLE workflow.prompts }

/-- Step 9 of `mergeEnhancements`: the trivial collapse.  When the merged
complexity is `trivial`, keep only the first prompt matching "planning" and
the first matching "implementation" (by category or by title), re-phased to
1 and 2 with fixed titles and contents; if neither matcher found anything,
fall back to two minimal records.

Both `find` calls run before either mutation, and the source then mutates
the found objects in place and pushes references.  When the two finds hit
the same array element, the implementation mutation overwrites the planning
one, and that single object appears twice in the result (phase 2 and title
"Implementation" in both positions).  We detect that aliasing by value
equality of the two found records, which coincides with reference equality
here: two structurally equal records at distinct indices cannot each be the
first match of its predicate, since each would then also be an earlier
match of the other predicate. -/
def mergeStepCollapse (workflow : Workflow) : Workflow :=
  if workflow.complexity = "trivial" ∨ workflow.analysis.complexity = "trivial" then
    let planningPrompt := workflow.prompts.find? fun p =>
      p.category = "planning" || strContains (jsToLower p.title) "planning"
    let implementationPrompt := workflow.prompts.find? fun p =>
      p.category = "implementation" || strContains (jsToLower p.title) "implementation"
    let newPrompts :=
      match planningPrompt, implementationPrompt with
      | some pp, some ip =>
        if pp = ip then
          [{ pp with
             phase := some 2
             title := "Implementation"
             content := collapseImplementationContent workflow.originalRequest },
           { pp with
             phase := some 2
             title := "Implementation"
             content := collapseImplementationContent workflow.originalRequest }]
        else
          [{ pp with
             phase := some 1
             title := "Planning Phase (Simplified)"
             content := collapsePlanningContent workflow.originalRequest },
           { ip with
             phase := some 2
             title := "Implementation"
             content := collapseImplementationContent workflow.originalRequest }]
      | some pp, none =>
        [{ pp with
           phase := some 1
           title := "Planning Phase (Simplified)"
           content := collapsePlanningContent workflow.originalRequest }]
      | none, some ip =>
        [{ ip with
           phase := some 2
           title := "Implementation"
           content := collapseImplementationContent workflow.originalRequest }]
      | none, none => []
    let newPrompts :=
      if newPrompts.isEmpty then
        [{ title := "Planning Phase (Simplified)", category := "planning", phase := some 1,
           risk := "low",
           content := "Plan the simple change: \"" ++ workflow.originalRequest ++ "\"" },
         { title := "Implementation", category := "implementation", phase := some 2,
           risk := "low",
           content := "Implement the change: \"" ++ workflow.originalRequest ++ "\"" }]
      else newPrompts
    { workflow with prompts := newPrompts }
  else workflow

/-- `mergeEnhancements` (`enhanced-ai-analysis.js` lines 376–571): the named
steps above in source order, with the early return on an empty remote
prompt list between the meta step and the prompt merge. -/
def mergeEnhancements (workflow : Workflow) (enhanced : Enhanced) : Workflow :=
  let step1 := mergeStepAnalysis workflow enhanced
  let workflow := mergeStepMeta step1.1 enhanced
  if enhanced.prompts.isEmpty then workflow
  else
    let workflow := mergeStepPrompts workflow enhanced
    let workflow := mergeStepCollapse workflow
    { workflow with enhanced := true, aiAssessment := step1.2 }

/-- The risk-emoji map of `wrapPromptWithFullSafety` with its `|| '🟡'`
fallback. -/
def riskEmojiFull (riskLevel : String) : String :=
  if riskLevel = "low" then "🟢"
  else if riskLevel = "medium" then "🟡"
  else if riskLevel = "high" then "🔴"
  else if riskLevel = "trivial" then "🟢"
  else "🟡"

/-- The part of the `wrapPromptWithFullSafety` template before `${content}`. -/
def safetyHeader (riskLevel category : String) : String :=
  "🩺 PROMPTDOCTOR SAFETY SYSTEM
━━━━━━━━━━━━━━━━━━━━━━━━━━━━━━━━━━━━
⚠️ SAFETY-FIRST AI AGENT INSTRUCTIONS
━━━━━━━━━━━━━━━━━━━━━━━━━━━━━━━━━━━━

RISK LEVEL: " ++ riskEmojiFull riskLevel ++ " " ++ jsToUpper (jsOrS riskLevel "medium") ++ "
PHASE: " ++ jsToUpper (jsOrS category "implementation") ++ "

🔒 MANDATORY SAFETY PROTOCOLS:
1. PRESERVE STABILITY - Never break existing functionality
2. INCREMENTAL CHANGES - Make small, testable modifications
3. VALIDATE CONTINUOUSLY - Test after every change
4. DOCUMENT EVERYTHING - Track all modifications
5. MONITOR IMPACT - Watch for side effects

"
  ++ (if riskLevel = "high" then
        "\n⚠️ HIGH-RISK OPERATION DETECTED
━━━━━━━━━━━━━━━━━━━━━━━━━━━━━━━━━━━━
EXTREME CAUTION REQUIRED:
• Create full backup before starting
• Prepare and test rollback plan
• Enable active monitoring
• Keep incident response ready
• Proceed with maximum care
━━━━━━━━━━━━━━━━━━━━━━━━━━━━━━━━━━━━
"
      else "")
  ++ "\n\n✅ PRE-FLIGHT CHECKLIST:
□ Understand the complete request
□ Review all safety protocols
□ Verify necessary permissions
□ Confirm system stability
□ Prepare rollback capability

━━━━━━━━━━━━━━━━━━━━━━━━━━━━━━━━━━━━
🎯 TASK INSTRUCTIONS:
━━━━━━━━━━━━━━━━━━━━━━━━━━━━━━━━━━━━

"

/-- The part of the `wrapPromptWithFullSafety` template after `${content}`. -/
def safetyFooter (riskLevel : String) : String :=
  "\n\n━━━━━━━━━━━━━━━━━━━━━━━━━━━━━━━━━━━━
🔒 POST-EXECUTION VERIFICATION:
━━━━━━━━━━━━━━━━━━━━━━━━━━━━━━━━━━━━

After completing this task:
✓ Verify successful completion
✓ Check for errors or warnings
✓ Confirm system stability
✓ Document all changes made
"
  ++ (if riskLevel = "high" then "✓ Verify rollback availability" else "")
  ++ "\n"
  ++ (if ¬(riskLevel = "low") ∧ ¬(riskLevel = "trivial") then "✓ Check monitoring metrics" else "")
  ++ "\n\n⚠️ STOP if anything seems wrong and investigate before continuing.

━━━━━━━━━━━━━━━━━━━━━━━━━━━━━━━━━━━━
END PROMPTDOCTOR SAFETY SYSTEM
━━━━━━━━━━━━━━━━━━━━━━━━━━━━━━━━━━━━"

/-- `wrapPromptWithFullSafety` (`enhanced-ai-analysis.js` lines 645–715):
the fixed safety template around the content, keyed by risk level and
phase category. -/
def wrapPromptWithFullSafety (content riskLevel category : String) : String :=
  safetyHeader riskLevel category ++ content ++ safetyFooter riskLevel

/-- `createFinalVerificationPrompt` (`enhanced-ai-analysis.js` lines
746–794): the standalone phase-99 verification record appended for
non-low-risk runs. -/
def createFinalVerificationPrompt (riskLevel : String) : PromptRecord :=
  { title := "Final System Verification"
    category := "verification"
    phase := some 99
    risk := riskLevel
    content := "✅ FINAL SYSTEM VERIFICATION

All implementation phases are complete. Perform final verification:

📋 FINAL CHECKLIST:
1. FUNCTIONALITY
   ⬜ Original request has been fulfilled
   ⬜ All new features working as expected
   ⬜ No existing features broken
   ⬜ Edge cases handled properly

2. QUALITY
   ⬜ Code follows project standards
   ⬜ Tests are passing
   ⬜ Documentation updated
   ⬜ Performance acceptable

3. SAFETY
   ⬜ No security vulnerabilities introduced
   ⬜ Data integrity maintained
   ⬜ Rollback plan still available
   ⬜ Monitoring shows normal metrics
"
      ++ (if riskLevel = "high" then
            "\n4. HIGH-RISK VERIFICATION
   ⬜ Production systems stable
   ⬜ No customer impact detected
   ⬜ Business metrics normal
   ⬜ Stakeholders notified of completion
"
          else "")
      ++ "\n📊 SUCCESS CRITERIA MET?
- All checklist items complete: YES / NO
- System functioning correctly: YES / NO
- Ready for production use: YES / NO

If any item is NO, document the issue and plan remediation.

🎉 IMPLEMENTATION COMPLETE
Document lessons learned and any follow-up tasks needed."
    enhanced := some true }

/-- `addSafetyWrappers` (`enhanced-ai-analysis.js` lines 576–593): wrap
every prompt's content, then append the final phase-99 verification record
for risk levels other than `low`/`trivial`. -/
def addSafetyWrappers (prompts : List PromptRecord) (riskLevel : String) : List PromptRecord :=
  let wrappedPrompts := prompts.map fun prompt =>
    { prompt with content :=
        wrapPromptWithFullSafety prompt.content (jsOrS prompt.risk riskLevel) prompt.category }
  if ¬(riskLevel = "low") ∧ ¬(riskLevel = "trivial") then
    wrappedPrompts ++ [createFinalVerificationPrompt riskLevel]
  else wrappedPrompts

/-- The observable outcome of the network call to the chat-completions
endpoint: the fetch threw, the response had a non-success status, or it
succeeded and carried the model's text (`data.content[0].text`). -/
inductive RemoteOutcome where
  | netError (message : String) : RemoteOutcome
  | httpError (status : Nat) (errorBody : String) : RemoteOutcome
  | success (text : String) : RemoteOutcome

/-- `callClaudeAPI` (`enhanced-ai-analysis.js` lines 316–346): a non-ok
response becomes a thrown error, modelled as `Except.error`. -/
def callClaudeAPI : RemoteOutcome → Except String String
  | .netError m => .error m
  | .httpError status errorBody =>
      .error ("Claude API error: " ++ toString status ++ " - " ++ errorBody)
  | .success t => .ok t

/-- `enhanceWorkflowWithAI` (`enhanced-ai-analysis.js` lines 60–81): call
the API and merge; any thrown error is caught and the original workflow
returned. -/
def enhanceWorkflowWithAI (workflow : Workflow) (outcome : RemoteOutcome) : Workflow :=
  match callClaudeAPI outcome with
  | .error _ => workflow
  | .ok responseText => mergeEnhancements workflow (parseEnhancedResponse responseText)

/-- `EnhancedAIAnalysisEngine.analyzeRequest` (`enhanced-ai-analysis.js`
lines 32–55) with the orchestrator available: orchestrate, optionally
enhance (all enhancement failures fall back to the orchestrated workflow),
then add the safety wrappers. -/
def analyzeRequest (ctx : Option AppContext) (userRequest : String)
    (apiKey : Option String) (outcome : RemoteOutcome) : Workflow :=
  let workflow := PromptOrchestrator.orchestrateRequest ctx userRequest
  let workflow :=
    match apiKey with
    | none => workflow
    | some _ => enhanceWorkflowWithAI workflow outcome
  { workflow with prompts := addSafetyWrappers workflow.prompts workflow.riskLevel }

end EnhancedAIAnalysisEngine

namespace AnalysisEngine

/-! ### `analysis.js` — the `AnalysisEngine` classifier

The engine's regex tables, vagueness check, risk scoring, prompt templates
and clarification suggestions.  All tests run on the lower-cased trimmed
request, so the `/i` flags of the source are inert.  (The source file holds
its emoji in a damaged encoding; the template texts below reproduce it byte
for byte.) -/

/-- A regex `X.?Y` fragment (`.?` is one optional non-newline character). -/
def rxDotOpt (x y : String) : Rx := rxCats [rxLit x, rxOpt (.cls .dot), rxLit y]

/-- `changePatterns.web.patterns`. -/
def webPatterns : List Rx :=
  [rxAltStrs ["ui", "interface", "form", "button", "page", "component", "style", "design",
              "frontend", "react", "vue", "html", "css", "styling", "layout", "responsive", "mobile"],
   rxAltStrs ["navbar", "header", "footer", "menu", "modal", "popup", "dropdown", "tooltip",
              "banner", "card", "grid", "flex"],
   rxAltStrs ["color", "font", "typography", "spacing", "margin", "padding", "border",
              "shadow", "animation", "transition"]]

/-- `changePatterns.api.patterns`. -/
def apiPatterns : List Rx :=
  [rxAltStrs ["api", "endpoint", "server", "backend", "logic", "function", "route",
              "controller", "service", "middleware"],
   rxAltStrs ["get", "post", "put", "delete", "patch", "request", "response", "json",
              "xml", "rest", "graphql"],
   rxAlts [rxLit "validation", rxLit "sanitization", rxLit "processing", rxLit "calculation",
           rxLit "algorithm", rxDotOpt "business" "logic"]]

/-- `changePatterns.auth.patterns`. -/
def authPatterns : List Rx :=
  [rxAltStrs ["auth", "login", "logout", "signin", "signup", "register", "password",
              "token", "jwt", "session", "cookie"],
   rxAlts [rxLit "oauth", rxLit "sso", rxLit "2fa", rxDotOpt "multi" "factor", rxLit "permission",
           rxLit "role", rxLit "access", rxLit "security", rxLit "encryption"],
   rxAltStrs ["user", "account", "profile", "credential", "authentication", "authorization"]]

/-- `changePatterns.database.patterns`. -/
def databasePatterns : List Rx :=
  [rxAltStrs ["database", "db", "table", "schema", "migration", "model", "entity",
              "collection", "document"],
   rxAltStrs ["sql", "mysql", "postgres", "mongodb", "sqlite", "prisma", "sequelize",
              "orm", "query"],
   rxAlts [rxDotOpt "create" "table", rxDotOpt "alter" "table", rxDotOpt "drop" "table",
           rxLit "index", rxLit "constraint", rxDotOpt "foreign" "key"],
   rxAlts [rxLit "insert", rxLit "update", rxLit "delete", rxLit "select", rxLit "join",
           rxLit "where", rxDotOpt "order" "by", rxDotOpt "group" "by"]]

/-- The `changePatterns` table in source order: type name, patterns, keywords. -/
def changePatterns : List (String × List Rx × List String) :=
  [("web", webPatterns,
    ["ui", "interface", "form", "button", "page", "component", "style", "design", "frontend"]),
   ("api", apiPatterns,
    ["api", "endpoint", "server", "backend", "logic", "function", "route"]),
   ("auth", authPatterns,
    ["auth", "login", "user", "password", "token", "session"]),
   ("database", databasePatterns,
    ["database", "db", "table", "schema", "migration", "model"])]

/-- `classifyChangeTypes`: every category with a pattern or keyword match,
defaulting to `["web"]`. -/
def classifyChangeTypes (request : String) : List String :=
  let types := (changePatterns.filter fun t =>
    (t.2.1.any fun rx => rxSearch rx request) || (t.2.2.any (strContains request))).map (fun t => t.1)
  if types.isEmpty then ["web"] else types

/-- `riskFactors.high`. -/
def riskHighPatterns : List Rx :=
  [rxAltStrs ["delete", "remove", "drop", "destroy", "clear", "wipe", "reset"],
   rxAlts [rxLit "migration", rxLit "schema", rxDotOpt "alter" "table", rxLit "database"],
   rxAltStrs ["auth", "password", "security", "permission", "role", "access"],
   rxAltStrs ["production", "prod", "live", "deploy"],
   rxAlts [rxLit "payment", rxLit "billing", rxLit "charge", rxLit "money", rxDotOpt "credit" "card"]]

/-- `riskFactors.medium`. -/
def riskMediumPatterns : List Rx :=
  [rxAltStrs ["update", "modify", "change", "edit", "replace"],
   rxAltStrs ["api", "endpoint", "backend", "server"],
   rxAltStrs ["user", "account", "profile"],
   rxAltStrs ["validation", "sanitization"],
   rxAlts [rxLit "integration", rxLit "external", rxDotOpt "third" "party"]]

/-- `riskFactors.low`. -/
def riskLowPatterns : List Rx :=
  [rxAltStrs ["add", "create", "new", "build", "make"],
   rxAltStrs ["ui", "interface", "style", "design", "frontend"],
   rxAltStrs ["display", "show", "render", "view"],
   rxAltStrs ["text", "content", "copy", "label"]]

/-- `assessRisk` (`analysis.js` lines 141–170): pattern-count score with
change-type bonuses, mapped through the 4/2 thresholds. -/
def assessRisk (request : String) (changeTypes : List String) : String :=
  let riskScore : Nat :=
    3 * (riskHighPatterns.filter fun rx => rxSearch rx request).length
    + 2 * (riskMediumPatterns.filter fun rx => rxSearch rx request).length
    + 1 * (riskLowPatterns.filter fun rx => rxSearch rx request).length
  let riskScore := riskScore + (if changeTypes.contains "database" then 2 else 0)
  let riskScore := riskScore + (if changeTypes.contains "auth" then 2 else 0)
  let riskScore := riskScore + (if changeTypes.contains "api" then 1 else 0)
  if 4 ≤ riskScore then "high"
  else if 2 ≤ riskScore then "medium"
  else "low"

/-- The anchored one-word patterns of `isTooVague`. -/
def vaguePatterns : List Rx :=
  [rxAlts [rxLit "fix", rxLit "update", rxLit "change", rxLit "modify", rxLit "improve",
           rxCats [rxLit "make", rxPlus (.cls .dot), rxLit "better"], rxLit "enhance"],
   rxAltStrs ["help", "can you", "please", "i need", "i want"],
   rxAltStrs ["bug", "error", "issue", "problem"],
   rxAltStrs ["feature", "functionality", "component"],
   rxAltStrs ["add something", "create something", "build something"]]

/-- `isTooVague` (`analysis.js` lines 102–118): shorter than 10 characters,
or a whole-string match of one of the fixed vague patterns. -/
def isTooVague (request : String) : Bool :=
  if request.length < 10 then true
  else vaguePatterns.any fun rx => rxMatchFull rx request

/-- `calculateConfidence` (`analysis.js` lines 172–185). -/
def calculateConfidence (request : String) (changeTypes : List String) : ℚ :=
  let confidence : ℚ := 0.5
  let confidence := if 0 < changeTypes.length then confidence + 0.2 else confidence
  let confidence := if 20 < request.length then confidence + 0.1 else confidence
  let confidence := if strContains request "with" || strContains request "using" then confidence + 0.1 else confidence
  let confidence := if strContains request "somehow" || strContains request "maybe" then confidence - 0.2 else confidence
  let confidence := if strContains request "better" || strContains request "improve" then confidence - 0.1 else confidence
  min (max confidence 0.1) 0.9

/-- One output prompt of the `AnalysisEngine` (`{title, category, risk,
content}`; this engine's records carry no phase ordinal). -/
structure APrompt where
  title : String
  category : String
  risk : String
  content : String
deriving DecidableEq

/-- One suggested reformulation (`{label, template}`). -/
structure Suggestion where
  label : String
  template : String
deriving DecidableEq

/-- The result of `AnalysisEngine.analyzeRequest`: the "insufficient"
success-shaped value, or the full result. -/
inductive AnalysisResult where
  /-- `createInsufficientResult`: `sufficient: false` plus suggestions -/
  | insufficient (reason : String) (originalRequest : String)
      (suggestions : List Suggestion) : AnalysisResult
  /-- the `sufficient: true` result -/
  | ok (confidence : ℚ) (changeTypes : List String) (riskLevel : String)
      (prompts : List APrompt) (originalRequest : String) : AnalysisResult
deriving DecidableEq

/-- The `riskEmoji` map of `generateSystemPrompt`. -/
def riskEmojiA (riskLevel : String) : String :=
  if riskLevel = "low" then "üü¢"
  else if riskLevel = "medium" then "üü°"
  else if riskLevel = "high" then "üî¥"
  else ""

/-- `generateSystemPrompt` (`analysis.js` lines 219–263). -/
def generateSystemPrompt (userRequest : String) (changeTypes : List String) (riskLevel : String) : APrompt :=
  { title := "Safety System Instructions"
    category := "system"
    risk := riskLevel
    content :=
      "ü©∫ PROMPTDOCTOR SAFETY SYSTEM

CHANGE REQUEST: \"" ++ userRequest ++ "\"
AFFECTED SYSTEMS: " ++ jsToUpper (String.intercalate ", " changeTypes) ++ "
RISK LEVEL: "
      ++ riskEmojiA riskLevel ++ " " ++ jsToUpper riskLevel
      ++ "

CORE SAFETY PRINCIPLES:
1. STABILITY FIRST - Do not break existing functionality
2. REVERSIBLE CHANGES - Ensure every change can be undone
3. TEST EVERYTHING - Verify functionality after each step
4. DOCUMENT CHANGES - Update relevant documentation

MANDATORY SAFETY ACTIONS:
- [ ] Test existing functionality before making changes
- [ ] Create backup/checkpoint before starting
- [ ] Make incremental changes (one component at a time)
- [ ] Test after each significant modification
- [ ] Document what was changed and why
- [ ] Prepare rollback plan

"
      ++ (if riskLevel = "high" then "
‚ö†Ô∏è HIGH RISK OPERATION:
This change affects critical systems. Extra caution required:
- Double-check all modifications
- Test thoroughly in development first
- Have rollback plan ready
- Consider impact on users/data
" else "")
      ++ "

Remember: When in doubt, choose the safer approach. Your goal is a working, stable system.

Now proceed with implementing this change following these safety protocols." }

/-- `generateWebPrompts` (`analysis.js` lines 265–350). -/
def generateWebPrompts (userRequest : String) (riskLevel : String) : List APrompt :=
  [{ title := "Frontend Pre-Implementation Check"
     category := "web-validation"
     risk := "low"
     content := "Before implementing \"" ++ userRequest ++ "\", validate the current frontend state:

CURRENT STATE VALIDATION:
1. Test existing UI functionality:
   - Navigate through all major user flows
   - Test forms, buttons, and interactive elements
   - Check responsive design on different screen sizes
   - Note any existing console errors or warnings

2. Document current behavior:
   - Take screenshots of areas that will change
   - Note current styling and layout
   - List any JavaScript dependencies or libraries
   - Record current user experience flows

3. Identify potential impact:
   - What components might be affected?
   - Are there shared CSS classes or styles?
   - Will this change affect other pages/components?
   - Are there any accessibility considerations?

SAFETY CHECKLIST:
- [ ] All existing functionality works properly
- [ ] No console errors in current state
- [ ] Responsive design functions correctly
- [ ] Forms and interactions work as expected
- [ ] Accessibility features are functional

Only proceed after confirming the current frontend is stable and well-documented." },
   { title := "Safe Frontend Implementation"
     category := "web-implementation"
     risk := riskLevel
     content := "Implement: \"" ++ userRequest ++ "\"

SAFE IMPLEMENTATION STRATEGY:
1. Incremental Development:
   - Make one change at a time
   - Test immediately after each change
   - Commit/save work after each working step
   - Don't make multiple simultaneous changes

2. Preserve Existing Functionality:
   - Keep existing CSS classes and IDs where possible
   - Add new styles rather than modifying global ones
   - Ensure new JavaScript doesn't conflict with existing code
   - Maintain current responsive design patterns

3. Code Quality Standards:
   - Use semantic HTML elements
   - Follow consistent naming conventions
   - Add comments for complex functionality
   - Ensure code is readable and maintainable

TESTING DURING IMPLEMENTATION:
- [ ] Component renders correctly in browser
- [ ] No new JavaScript errors in console
- [ ] Responsive design works on mobile/tablet
- [ ] Existing functionality remains unaffected
- [ ] New functionality works as intended
- [ ] Performance hasn't degraded noticeably

"
       ++ (if riskLevel = "high" then "
‚ö†Ô∏è EXTRA PRECAUTIONS (High Risk):
- Test on multiple browsers if possible
- Verify accessibility compliance
- Check for any security implications
- Consider user data or privacy impact
" else "")
       ++ "

Document any unexpected issues or deviations from the original plan." }]

/-- `generateAPIPrompts` (`analysis.js` lines 352–441). -/
def generateAPIPrompts (userRequest : String) (riskLevel : String) : List APrompt :=
  [{ title := "API Safety Validation"
     category := "api-validation"
     risk := "medium"
     content := "Before modifying API functionality for \"" ++ userRequest ++ "\", establish current baseline:

CURRENT API STATE ASSESSMENT:
1. Test existing endpoints:
   - Verify all current endpoints respond correctly
   - Test with various input parameters
   - Document current response formats and status codes
   - Note current response times and performance

2. Identify system dependencies:
   - What endpoints will be modified or affected?
   - Which functions/modules call the code being changed?
   - Are there external systems depending on this API?
   - What database queries or external services are involved?

3. Document current contracts:
   - Input parameter requirements and types
   - Output response formats (JSON structure)
   - Error handling and error response formats
   - Authentication/authorization requirements

BACKWARD COMPATIBILITY CHECK:
- [ ] Current API contracts documented
- [ ] External dependencies identified
- [ ] Database schema reviewed
- [ ] Authentication flows tested
- [ ] Error handling verified

CRITICAL: Ensure backward compatibility unless explicitly planning breaking changes." },
   { title := "API Implementation with Safety"
     category := "api-implementation"
     risk := riskLevel
     content := "Implement API changes for: \"" ++ userRequest ++ "\"

SAFE API IMPLEMENTATION:
1. Preserve Existing Interfaces:
   - Keep current endpoint URLs unchanged
   - Maintain existing parameter names and types
   - Preserve response format structure
   - Don't remove fields that clients might expect

2. Incremental Implementation:
   - Modify one function/endpoint at a time
   - Test each change individually before proceeding
   - Add new functionality before removing old (if applicable)
   - Use feature flags or versioning if available

3. Robust Error Handling:
   - Maintain existing error codes and messages
   - Add proper error handling for new logic
   - Ensure graceful degradation if new features fail
   - Validate all input parameters thoroughly

4. Security Considerations:
   - Sanitize and validate all inputs
   - Maintain existing authentication checks
   - Don't expose sensitive information in responses
   - Follow secure coding practices

TESTING REQUIREMENTS:
- [ ] Unit tests pass for all modified functions
- [ ] Integration tests verify endpoint behavior
- [ ] Error scenarios handled appropriately
- [ ] Performance hasn't degraded significantly
- [ ] Security validations in place
- [ ] Backward compatibility maintained

"
       ++ (if riskLevel = "high" then "
‚ö†Ô∏è HIGH RISK API CHANGES:
- Consider API versioning for breaking changes
- Plan migration strategy for clients
- Implement comprehensive logging
- Have immediate rollback plan ready
" else "")
       ++ "

Document any breaking changes or new requirements for API consumers." }]

/-- `generateAuthPrompts` (`analysis.js` lines 443–532); both records are
fixed `high`-risk. -/
def generateAuthPrompts (userRequest : String) : List APrompt :=
  [{ title := "Authentication Security Assessment"
     category := "auth-validation"
     risk := "high"
     content := "‚ö†Ô∏è SECURITY CRITICAL: Before implementing \"" ++ userRequest ++ "\", complete security assessment:

CURRENT AUTHENTICATION REVIEW:
1. Document existing auth system:
   - Current authentication methods (password, OAuth, etc.)
   - Session management approach (JWT, cookies, etc.)
   - Password requirements and storage method
   - User data collection and storage

2. Security baseline verification:
   - Passwords are properly hashed (bcrypt, Argon2, etc.)
   - Session tokens are secure and expire appropriately
   - Input validation prevents injection attacks
   - HTTPS is enforced for all auth endpoints

3. Compliance and privacy check:
   - User data handling follows privacy requirements
   - Password reset flow is secure
   - Account lockout policies in place
   - Audit logging for security events

SECURITY CHECKLIST:
- [ ] Current auth system documented and secure
- [ ] Password storage follows best practices
- [ ] Session management is robust
- [ ] Input validation prevents attacks
- [ ] HTTPS enforced
- [ ] Privacy requirements met

DO NOT PROCEED unless current security posture is verified and documented." },
   { title := "Secure Authentication Implementation"
     category := "auth-implementation"
     risk := "high"
     content := "Implement authentication feature: \"" ++ userRequest ++ "\"

üîí SECURITY-FIRST IMPLEMENTATION:

1. Secure Coding Practices:
   - Hash passwords with bcrypt (min 12 rounds) or Argon2
   - Use cryptographically secure random tokens
   - Implement proper session management
   - Validate and sanitize ALL inputs
   - Use parameterized queries to prevent SQL injection

2. Authentication Best Practices:
   - Implement rate limiting on auth endpoints
   - Use secure password requirements (length, complexity)
   - Implement account lockout after failed attempts
   - Secure password reset flow with time-limited tokens
   - Log authentication events for monitoring

3. Session Security:
   - Use secure, httpOnly cookies for sessions
   - Implement proper session expiration
   - Regenerate session IDs after login
   - Secure logout that invalidates sessions
   - Consider JWT with proper validation if used

4. Data Protection:
   - Never store passwords in plain text
   - Minimize collection of sensitive user data
   - Encrypt sensitive data at rest if required
   - Secure transmission with HTTPS only

MANDATORY SECURITY TESTING:
- [ ] Password hashing verified (never plain text)
- [ ] SQL injection prevention tested
- [ ] Session security validated
- [ ] Rate limiting implemented
- [ ] HTTPS enforced
- [ ] Input validation comprehensive
- [ ] Authentication flow secure end-to-end

‚ö†Ô∏è CRITICAL: Have security expert review before production deployment.

Test thoroughly with various attack scenarios before considering complete." }]

/-- `generateDatabasePrompts` (`analysis.js` lines 534–632); both records
are fixed `high`-risk. -/
def generateDatabasePrompts (userRequest : String) : List APrompt :=
  [{ title := "Database Change Safety Protocol"
     category := "database-validation"
     risk := "high"
     content := "üî¥ CRITICAL DATABASE OPERATION: \"" ++ userRequest ++ "\"

MANDATORY PRE-CHANGE PROCEDURES:
1. Complete Database Backup:
   - Create full database backup and verify it works
   - Test backup restoration process
   - Document backup location and restoration steps
   - Ensure backup includes all relevant data and schema

2. Document Current State:
   - Export current database schema
   - Document all table relationships and constraints
   - Note any stored procedures, triggers, or functions
   - Record current data volumes and key metrics

3. Migration Planning:
   - Plan exact steps for schema changes
   - Prepare rollback migration scripts
   - Identify potential data loss scenarios
   - Estimate downtime requirements

4. Impact Assessment:
   - What applications depend on this database?
   - Which tables/fields will be affected?
   - Are there any foreign key constraints?
   - Will this break existing queries or reports?

SAFETY CHECKLIST:
- [ ] Database backup completed and verified
- [ ] Rollback plan documented and tested
- [ ] All dependencies identified
- [ ] Migration scripts prepared
- [ ] Downtime window planned

DO NOT PROCEED WITHOUT CONFIRMED BACKUP AND ROLLBACK PLAN." },
   { title := "Safe Database Implementation"
     category := "database-implementation"
     risk := "high"
     content := "Execute database changes for: \"" ++ userRequest ++ "\"

üî¥ CRITICAL IMPLEMENTATION PROTOCOL:

1. Pre-Execution Final Check:
   - Confirm backup is complete and restorable
   - Verify rollback scripts are ready
   - Ensure no active users during change window
   - Have database administrator available if possible

2. Step-by-Step Execution:
   - Execute ONE migration step at a time
   - Verify each step before proceeding to next
   - Check data integrity after each change
   - Monitor for any errors or warnings
   - Document any unexpected behavior

3. Real-Time Monitoring:
   - Watch for database lock contention
   - Monitor database logs for errors
   - Check application connectivity during changes
   - Be prepared to rollback immediately if issues arise

4. Data Integrity Validation:
   - Verify all data migrated correctly
   - Check foreign key constraints still valid
   - Validate data types and constraints
   - Ensure no data corruption occurred

MANDATORY VALIDATION STEPS:
- [ ] Each migration step completed successfully
- [ ] No error messages in database logs
- [ ] Data integrity verified
- [ ] Application can connect and query successfully
- [ ] All constraints and relationships intact
- [ ] Performance hasn't degraded significantly

IMMEDIATE ROLLBACK CONDITIONS:
- Any data loss detected
- Constraint violations
- Application connectivity issues
- Significant performance degradation
- Any unexpected errors

‚ö†Ô∏è STOP IMMEDIATELY if any validation fails. Execute rollback plan.

Only mark complete after thorough post-change verification." }]

/-- `generateVerificationPrompt` (`analysis.js` lines 634–685). -/
def generateVerificationPrompt (userRequest : String) (changeTypes : List String) (riskLevel : String) : APrompt :=
  let _ := changeTypes
  { title := "Final Safety Verification"
    category := "verification"
    risk := riskLevel
    content := "Complete final verification for: \"" ++ userRequest ++ "\"

POST-IMPLEMENTATION VERIFICATION:

1. System-Wide Testing:
   - Test all major application functionality
   - Verify the specific change works as intended
   - Check that existing features still work properly
   - Test user workflows end-to-end

2. Performance and Stability:
   - Monitor application performance
   - Check for memory leaks or resource issues
   - Verify no new errors in logs
   - Ensure response times are acceptable

3. Security and Data Integrity:
   - Verify no sensitive information exposed
   - Check that data validation still works
   - Ensure authentication/authorization intact
   - Confirm no new security vulnerabilities

4. Documentation and Cleanup:
   - Update relevant documentation
   - Clean up any temporary files or code
   - Document lessons learned
   - Update deployment procedures if needed

FINAL VERIFICATION CHECKLIST:
- [ ] All functionality tested and working
- [ ] Performance within acceptable range
- [ ] No new security vulnerabilities
- [ ] Documentation updated
- [ ] Change properly logged
- [ ] Rollback procedures confirmed

"
      ++ (if riskLevel = "high" then "
‚ö†Ô∏è HIGH RISK - EXTENDED MONITORING:
- Monitor system for next 24-48 hours
- Have rollback plan ready for immediate use
- Document any issues for future improvements
- Consider gradual rollout if possible
" else "")
      ++ "

üéâ Congratulations! Your deployment should now be safer and more reliable." }

/-- `generatePrompts` (`analysis.js` lines 187–217): the system prompt,
then the per-type prompt pairs in change-type order, then the verification
prompt for non-low risk. -/
def generatePrompts (userRequest : String) (changeTypes : List String) (riskLevel : String) : List APrompt :=
  [generateSystemPrompt userRequest changeTypes riskLevel]
  ++ (changeTypes.flatMap fun ty =>
      if ty = "web" then generateWebPrompts userRequest riskLevel
      else if ty = "api" then generateAPIPrompts userRequest riskLevel
      else if ty = "auth" then generateAuthPrompts userRequest
      else if ty = "database" then generateDatabasePrompts userRequest
      else [])
  ++ (if ¬(riskLevel = "low") then [generateVerificationPrompt userRequest changeTypes riskLevel] else [])

/-- `generateClarificationSuggestions` (`analysis.js` lines 698–764):
pattern-keyed suggestion pairs, the three generic templates when nothing
matched, capped at three. -/
def generateClarificationSuggestions (userRequest : String) : List Suggestion :=
  let request := jsToLower userRequest
  let suggestions :=
    (if strContains request "login" || strContains request "auth" then
      [⟨"Email/Password Login",
        "Add email/password login form with user registration, password reset, and secure session management"⟩,
       ⟨"OAuth Integration",
        "Add Google OAuth login integration with user profile sync and secure token management"⟩]
     else [])
    ++ (if strContains request "form" then
      [⟨"Contact Form",
        "Add contact form with name, email, message fields, validation, and email submission to admin"⟩,
       ⟨"User Registration",
        "Add user registration form with email validation, password requirements, and account confirmation"⟩]
     else [])
    ++ (if strContains request "api" then
      [⟨"REST API Endpoints",
        "Create REST API endpoints for user data with GET/POST/PUT/DELETE operations and proper validation"⟩,
       ⟨"Authentication API",
        "Add authentication API endpoints for login, registration, logout, and token validation"⟩]
     else [])
    ++ (if strContains request "dashboard" || strContains request "admin" then
      [⟨"User Dashboard",
        "Create user dashboard with profile management, settings, and data visualization components"⟩,
       ⟨"Admin Panel",
        "Build admin panel with user management, analytics, and system configuration features"⟩]
     else [])
  let suggestions :=
    if suggestions.isEmpty then
      [⟨"Frontend Component",
        "Add [SPECIFIC_COMPONENT] to the [PAGE_NAME] with [FUNCTIONALITY] and [STYLING_REQUIREMENTS]"⟩,
       ⟨"API Feature",
        "Create [ENDPOINT_TYPE] API for [SPECIFIC_FEATURE] with [INPUT_DATA] and [OUTPUT_FORMAT]"⟩,
       ⟨"Database Change",
        "Modify database to [SPECIFIC_CHANGE] for [TABLE_NAME] with [FIELD_DETAILS] and [MIGRATION_PLAN]"⟩]
    else suggestions
  suggestions.take 3

/-- `createInsufficientResult` (`analysis.js` lines 687–696). -/
def createInsufficientResult (userRequest : String) : AnalysisResult :=
  .insufficient "Request needs more specific details to generate safe prompts"
    userRequest (generateClarificationSuggestions userRequest)

/-- `AnalysisEngine.analyzeRequest` (`analysis.js` lines 75–100): the
too-vague short circuit, then classification, risk, confidence and the
prompt list. -/
def analyzeRequest (userRequest : String) : AnalysisResult :=
  let request := jsTrim (jsToLower userRequest)
  if isTooVague request then createInsufficientResult userRequest
  else
    let changeTypes := classifyChangeTypes request
    let riskLevel := assessRisk request changeTypes
    let prompts := generatePrompts userRequest changeTypes riskLevel
    .ok (calculateConfidence request changeTypes) changeTypes riskLevel prompts userRequest

end AnalysisEngine

/-! ## Concrete inputs and auxiliary definitions for the verification theorems

Sample workflows, remote responses and text-segment constants used by the
theorems below, together with the line-splitting function `linesOf` used to
state the wrapper properties. -/

set_option maxRecDepth 1000000

open PromptOrchestrator EnhancedAIAnalysisEngine AnalysisEngine

/-- Split a character list at newlines (semantics of reading a text as
lines; a trailing newline yields a final empty line, like
`"a\n".split("\n")`). -/
def linesOf : List Char → List (List Char)
  | [] => [[]]
  | c :: cs =>
    if c = '\n' then [] :: linesOf cs
    else
      match linesOf cs with
      | l :: ls => (c :: l) :: ls
      | [] => [[c]]

/-- The rollback verification checklist line of `wrapPromptWithFullSafety`. -/
def rollbackLine : List Char := "✓ Verify rollback availability".toList

def headerPreLow : String := "🩺 PROMPTDOCTOR SAFETY SYSTEM\n━━━━━━━━━━━━━━━━━━━━━━━━━━━━━━━━━━━━\n⚠️ SAFETY-FIRST AI AGENT INSTRUCTIONS\n━━━━━━━━━━━━━━━━━━━━━━━━━━━━━━━━━━━━\n\nRISK LEVEL: 🟢 LOW"

def headerMidLow : String := "\n🔒 MANDATORY SAFETY PROTOCOLS:\n1. PRESERVE STABILITY - Never break existing functionality\n2. INCREMENTAL CHANGES - Make small, testable modifications\n3. VALIDATE CONTINUOUSLY - Test after every change\n4. DOCUMENT EVERYTHING - Track all modifications\n5. MONITOR IMPACT - Watch for side effects\n\n\n\n✅ PRE-FLIGHT CHECKLIST:\n□ Understand the complete request\n□ Review all safety protocols\n□ Verify necessary permissions\n□ Confirm system stability\n□ Prepare rollback capability\n\n━━━━━━━━━━━━━━━━━━━━━━━━━━━━━━━━━━━━\n🎯 TASK INSTRUCTIONS:\n━━━━━━━━━━━━━━━━━━━━━━━━━━━━━━━━━━━━\n"

def headerPreHigh : String := "🩺 PROMPTDOCTOR SAFETY SYSTEM\n━━━━━━━━━━━━━━━━━━━━━━━━━━━━━━━━━━━━\n⚠️ SAFETY-FIRST AI AGENT INSTRUCTIONS\n━━━━━━━━━━━━━━━━━━━━━━━━━━━━━━━━━━━━\n\nRISK LEVEL: 🔴 HIGH"

def headerMidHigh : String := "\n🔒 MANDATORY SAFETY PROTOCOLS:\n1. PRESERVE STABILITY - Never break existing functionality\n2. INCREMENTAL CHANGES - Make small, testable modifications\n3. VALIDATE CONTINUOUSLY - Test after every change\n4. DOCUMENT EVERYTHING - Track all modifications\n5. MONITOR IMPACT - Watch for side effects\n\n\n⚠️ HIGH-RISK OPERATION DETECTED\n━━━━━━━━━━━━━━━━━━━━━━━━━━━━━━━━━━━━\nEXTREME CAUTION REQUIRED:\n• Create full backup before starting\n• Prepare and test rollback plan\n• Enable active monitoring\n• Keep incident response ready\n• Proceed with maximum care\n━━━━━━━━━━━━━━━━━━━━━━━━━━━━━━━━━━━━\n\n\n✅ PRE-FLIGHT CHECKLIST:\n□ Understand the complete request\n□ Review all safety protocols\n□ Verify necessary permissions\n□ Confirm system stability\n□ Prepare rollback capability\n\n━━━━━━━━━━━━━━━━━━━━━━━━━━━━━━━━━━━━\n🎯 TASK INSTRUCTIONS:\n━━━━━━━━━━━━━━━━━━━━━━━━━━━━━━━━━━━━\n"

def footerTailLow : String := "\n━━━━━━━━━━━━━━━━━━━━━━━━━━━━━━━━━━━━\n🔒 POST-EXECUTION VERIFICATION:\n━━━━━━━━━━━━━━━━━━━━━━━━━━━━━━━━━━━━\n\nAfter completing this task:\n✓ Verify successful completion\n✓ Check for errors or warnings\n✓ Confirm system stability\n✓ Document all changes made\n\n\n\n⚠️ STOP if anything seems wrong and investigate before continuing.\n\n━━━━━━━━━━━━━━━━━━━━━━━━━━━━━━━━━━━━\nEND PROMPTDOCTOR SAFETY SYSTEM\n━━━━━━━━━━━━━━━━━━━━━━━━━━━━━━━━━━━━"

def footerTailHigh : String := "\n━━━━━━━━━━━━━━━━━━━━━━━━━━━━━━━━━━━━\n🔒 POST-EXECUTION VERIFICATION:\n━━━━━━━━━━━━━━━━━━━━━━━━━━━━━━━━━━━━\n\nAfter completing this task:\n✓ Verify successful completion\n✓ Check for errors or warnings\n✓ Confirm system stability\n✓ Document all changes made\n✓ Verify rollback availability\n✓ Check monitoring metrics\n\n⚠️ STOP if anything seems wrong and investigate before continuing.\n\n━━━━━━━━━━━━━━━━━━━━━━━━━━━━━━━━━━━━\nEND PROMPTDOCTOR SAFETY SYSTEM\n━━━━━━━━━━━━━━━━━━━━━━━━━━━━━━━━━━━━"

def phaseLabel : String := "PHASE: "

/-- C6 witness input. -/
def wTrivSample : Workflow :=
  { sufficient := true
    confidence := 0.85
    originalRequest := "change the text"
    analysis :=
      { intent := "modify", scope := "component-level", riskLevel := "low",
        affectedSystems := ["general"], complexity := "trivial",
        requiresResearch := true, suggestedPhases := ["planning", "implementation"],
        contextRelevance := [] }
    changeTypes := ["general"]
    riskLevel := "low"
    riskFactors := []
    complexity := "trivial"
    prompts := [] }

/-- C6 witness remote analysis. -/
def eaHighSample : EnhAnalysis := { complexity := some "high", riskLevel := some "high" }

/-- C10 counterexample defs. -/
def wSampleApi : Workflow := orchestrateRequest none "update the user profile api endpoint"

def eClarifySample : Enhanced :=
  { sufficient := some false
    clarifyingQuestions := some ["Which endpoint is affected?"]
    prompts := [] }

/-- C10 witness. -/
def eOverrideSample : Enhanced :=
  { analysis := some { complexity := some "high", riskLevel := some "high" }
    confidence := some 0.9
    riskFactors := some ["external integration"]
    changeTypes := some ["backend"]
    prompts := [] }

def eTrivEmpty : Enhanced :=
  { analysis := some { complexity := some "trivial", riskLevel := some "low" }
    prompts := [] }

def eTrivShadow : Enhanced :=
  { analysis := some { complexity := some "trivial", riskLevel := some "low" }
    prompts := [{ title := some "Extra", category := some "extra",
                  phase := some 50, content := some "x" }] }

/-- A remote response whose one prompt (category "planning", title
"Implementation", phase 0) sorts first and is the first match of both
collapse matchers, so the two finds alias one record. -/
def eAliasSample : Enhanced :=
  { analysis := some { complexity := some "trivial", riskLevel := some "low" }
    prompts := [{ title := some "Implementation", category := some "planning",
                  phase := some 0, content := some "x" }] }

/-- The workflow just before the trivial collapse step. -/
def mergePreCollapse (w : Workflow) (e : Enhanced) : Workflow :=
  mergeStepPrompts (mergeStepMeta (mergeStepAnalysis w e).1 e) e

def planningMatchFn (p : PromptRecord) : Bool :=
  p.category = "planning" || strContains (jsToLower p.title) "planning"

def implementationMatchFn (p : PromptRecord) : Bool :=
  p.category = "implementation" || strContains (jsToLower p.title) "implementation"

/-- The collapsed planning record built from the matched record `pp`. -/
def collapsedPlanning (pp : PromptRecord) (origReq : String) : PromptRecord :=
  { pp with
      phase := some 1
      title := "Planning Phase (Simplified)"
      content := collapsePlanningContent origReq }

/-- The collapsed implementation record built from the matched record `ip`. -/
def collapsedImplementation (ip : PromptRecord) (origReq : String) : PromptRecord :=
  { ip with
      phase := some 2
      title := "Implementation"
      content := collapseImplementationContent origReq }

def body9 : String :=
  "\x7b\"prompts\": [\x7b\"title\": \"Extra\", \"category\": \"extra\", \"phase\": 100, \"content\": \"x\"\x7d]\x7d"

def bodyOk9 : String :=
  "\x7b\"prompts\": [\x7b\"title\": \"Extra\", \"category\": \"extra\", \"phase\": 50, \"content\": \"x\"\x7d]\x7d"

/-! ## Theorems -/

/-! Line structure of the safety-wrapped prompt text (claim C7). -/

theorem linesOf_ne_nil (z : List Char) : linesOf z ≠ [] := by
  cases z with
  | nil => simp [linesOf]
  | cons c cs =>
    unfold linesOf
    split_ifs
    · simp
    · cases h : linesOf cs <;> simp

theorem cons_headD_tail {α : Type} (l : List α) (d : α) (h : l ≠ []) :
    l.headD d :: l.tail = l := by
  cases l with
  | nil => exact absurd rfl h
  | cons a l => rfl

theorem linesOf_cons_newline (cs : List Char) : linesOf ('\n' :: cs) = [] :: linesOf cs := by
  conv_lhs => unfold linesOf
  rw [if_pos rfl]

theorem linesOf_cons_of_ne (c : Char) (cs l : List Char) (ls : List (List Char))
    (hc : ¬(c = '\n')) (h : linesOf cs = l :: ls) : linesOf (c :: cs) = (c :: l) :: ls := by
  unfold linesOf
  rw [if_neg hc, h]

theorem linesOf_newline_append (x y : List Char) :
    linesOf (x ++ '\n' :: y) = linesOf x ++ linesOf y := by
  induction x with
  | nil => rw [List.nil_append, linesOf_cons_newline]; rfl
  | cons c cs ih =>
    rw [List.cons_append]
    by_cases hc : c = '\n'
    · subst hc
      rw [linesOf_cons_newline, linesOf_cons_newline, ih]
      rfl
    · obtain ⟨l, ls, h⟩ : ∃ l ls, linesOf cs = l :: ls := by
        cases h : linesOf cs with
        | nil => exact absurd h (linesOf_ne_nil cs)
        | cons l ls => exact ⟨l, ls, rfl⟩
      rw [linesOf_cons_of_ne c _ (l) (ls ++ linesOf y) hc (by rw [ih, h]; rfl),
        linesOf_cons_of_ne c _ l ls hc h]
      rfl

theorem mem_of_mem_linesOf :
    ∀ (z l : List Char), l ∈ linesOf z → ∀ c ∈ l, c ∈ z := by
  intro z
  induction z with
  | nil =>
    intro l hl c hc
    simp [linesOf] at hl
    subst hl
    cases hc
  | cons a cs ih =>
    intro l hl c hc
    unfold linesOf at hl
    split_ifs at hl with ha
    · rcases List.mem_cons.mp hl with rfl | hl
      · cases hc
      · exact List.mem_cons_of_mem a (ih l hl c hc)
    · cases h : linesOf cs with
      | nil => exact absurd h (linesOf_ne_nil cs)
      | cons l0 ls =>
        rw [h] at hl
        rcases List.mem_cons.mp hl with rfl | hl
        · rcases List.mem_cons.mp hc with rfl | hc2
          · exact List.mem_cons_self c cs
          · refine List.mem_cons_of_mem a (ih l0 ?_ c hc2)
            rw [h]
            exact List.mem_cons_self l0 ls
        · refine List.mem_cons_of_mem a (ih l ?_ c hc)
          rw [h]
          exact List.mem_cons_of_mem l0 hl

theorem linesOf_prepend_line (P : List Char) (hP : ∀ c ∈ P, ¬(c = '\n')) (z : List Char) :
    linesOf (P ++ z) = (P ++ (linesOf z).headD []) :: (linesOf z).tail := by
  induction P with
  | nil =>
    simp only [List.nil_append]
    exact (cons_headD_tail (linesOf z) [] (linesOf_ne_nil z)).symm
  | cons c P ih =>
    have hc : ¬(c = '\n') := hP c (List.mem_cons_self c P)
    show linesOf (c :: (P ++ z)) = ((c :: P) ++ (linesOf z).headD []) :: (linesOf z).tail
    rw [linesOf_cons_of_ne c (P ++ z) _ _ hc (ih fun d hd => hP d (List.mem_cons_of_mem c hd))]
    rfl

theorem strToList_append (a b : String) : (a ++ b).toList = a.toList ++ b.toList := rfl

theorem jsToUpperChar_ne_e (c : Char) : ¬(jsToUpperChar c = 'e') := by
  unfold jsToUpperChar
  split_ifs with h
  · intro he
    have h2 : c.toNat - 32 = 101 := congrArg Char.toNat he
    omega
  · intro he
    subst he
    exact h (by decide)

theorem e_not_mem_jsToUpper (s : String) : ¬(('e' : Char) ∈ (jsToUpper s).toList) := by
  intro h
  rcases List.mem_map.mp h with ⟨c, _, hc⟩
  exact jsToUpperChar_ne_e c hc

theorem wrap_split_low (content category : String) :
    (wrapPromptWithFullSafety content "low" category).toList
      = headerPreLow.toList ++ '\n' ::
        ((phaseLabel.toList ++ (jsToUpper (jsOrS category "implementation")).toList) ++ '\n' ::
          (headerMidLow.toList ++ '\n' ::
            (content.toList ++ '\n' :: footerTailLow.toList))) := by
  simp only [wrapPromptWithFullSafety, safetyHeader, safetyFooter, riskEmojiFull,
    strToList_append, List.append_assoc, List.cons_append, List.nil_append]
  rfl

theorem wrap_split_high (content category : String) :
    (wrapPromptWithFullSafety content "high" category).toList
      = headerPreHigh.toList ++ '\n' ::
        ((phaseLabel.toList ++ (jsToUpper (jsOrS category "implementation")).toList) ++ '\n' ::
          (headerMidHigh.toList ++ '\n' ::
            (content.toList ++ '\n' :: footerTailHigh.toList))) := by
  simp only [wrapPromptWithFullSafety, safetyHeader, safetyFooter, riskEmojiFull,
    strToList_append, List.append_assoc, List.cons_append, List.nil_append]
  rfl

theorem lines_wrap_low (content category : String) :
    linesOf (wrapPromptWithFullSafety content "low" category).toList
      = linesOf headerPreLow.toList
        ++ linesOf (phaseLabel.toList ++ (jsToUpper (jsOrS category "implementation")).toList)
        ++ linesOf headerMidLow.toList
        ++ linesOf content.toList
        ++ linesOf footerTailLow.toList := by
  rw [wrap_split_low, linesOf_newline_append, linesOf_newline_append, linesOf_newline_append,
    linesOf_newline_append]
  simp [List.append_assoc]

theorem lines_wrap_high (content category : String) :
    linesOf (wrapPromptWithFullSafety content "high" category).toList
      = linesOf headerPreHigh.toList
        ++ linesOf (phaseLabel.toList ++ (jsToUpper (jsOrS category "implementation")).toList)
        ++ linesOf headerMidHigh.toList
        ++ linesOf content.toList
        ++ linesOf footerTailHigh.toList := by
  rw [wrap_split_high, linesOf_newline_append, linesOf_newline_append, linesOf_newline_append,
    linesOf_newline_append]
  simp [List.append_assoc]

theorem rollback_not_in_phase_lines (category : String) :
    ¬(rollbackLine ∈
      linesOf (phaseLabel.toList ++ (jsToUpper (jsOrS category "implementation")).toList)) := by
  intro h
  rw [linesOf_prepend_line phaseLabel.toList (by decide)] at h
  rcases List.mem_cons.mp h with heq | htail
  · have h2 : (some '\u2713' : Option Char) = some 'P' := congrArg List.head? heq
    simp at h2
  · have h2 := List.mem_of_mem_tail htail
    exact e_not_mem_jsToUpper (jsOrS category "implementation")
      (mem_of_mem_linesOf _ _ h2 'e' (by decide))

/-- C7 (amended). -/
theorem wrapPromptWithFullSafety_rollback (content category : String) :
    rollbackLine ∈ linesOf (wrapPromptWithFullSafety content "high" category).toList
    ∧ (rollbackLine ∈ linesOf (wrapPromptWithFullSafety content "low" category).toList
        ↔ rollbackLine ∈ linesOf content.toList) := by
  constructor
  · rw [lines_wrap_high]
    refine List.mem_append.mpr (Or.inr ?_)
    decide
  · rw [lines_wrap_low]
    constructor
    · intro h
      rcases List.mem_append.mp h with h | h
      · rcases List.mem_append.mp h with h | h
        · rcases List.mem_append.mp h with h | h
          · rcases List.mem_append.mp h with h | h
            · exact absurd h (by decide)
            · exact absurd h (rollback_not_in_phase_lines category)
          · exact absurd h (by decide)
        · exact h
      · exact absurd h (by decide)
    · intro h
      exact List.mem_append.mpr (Or.inl (List.mem_append.mpr (Or.inr h)))

/-- C7 counterexample. -/
theorem wrap_low_rollback_cex :
    rollbackLine ∈ linesOf
      (wrapPromptWithFullSafety "✓ Verify rollback availability" "low" "implementation").toList := by
  decide

/-- Helper: the score-to-label mapping never yields `trivial`. -/
theorem scoreLabel_ne_trivial (score : Int) : scoreLabel score ≠ "trivial" := by
  unfold scoreLabel
  split_ifs <;> decide

/-- C2: Total phase coverage. -/
theorem determineRequiredPhases_total_coverage :
    (∀ a : PhaseAnalysis,
      (∃ c ∈ (["trivial", "low", "medium", "high"] : List String), a.complexity = some c) →
      (∃ r ∈ (["low", "medium", "high"] : List String), a.riskLevel = some r) →
      determineRequiredPhases a ≠ [] ∧ "planning" ∈ determineRequiredPhases a
        ∧ "implementation" ∈ determineRequiredPhases a)
    ∧ (∀ a : PhaseAnalysis,
      ¬(a.complexity = some "trivial" ∧ a.riskLevel = some "low") →
      ¬(a.complexity = some "low" ∧ a.riskLevel = some "low") →
      ¬(a.complexity = some "medium" ∨ a.riskLevel = some "medium") →
      ¬(a.complexity = some "high" ∨ a.riskLevel = some "high") →
      determineRequiredPhases a = ["planning", "implementation", "verification"]) := by
  constructor
  · rintro a ⟨c, hc, hac⟩ ⟨r, hr, har⟩
    simp only [List.mem_cons, List.mem_singleton, List.not_mem_nil, or_false] at hc hr
    unfold determineRequiredPhases
    rcases hc with rfl | rfl | rfl | rfl <;> rcases hr with rfl | rfl | rfl <;>
      rw [hac, har] <;> split_ifs <;> simp_all
  · intro a h1 h2 h3 h4
    unfold determineRequiredPhases
    split_ifs <;> tauto

/-- C2 witness. -/
theorem determineRequiredPhases_total_coverage_witness :
    ("planning" ∈ determineRequiredPhases ⟨some "medium", some "low", some "unknown", some "unclear", []⟩
      ∧ "implementation" ∈ determineRequiredPhases ⟨some "medium", some "low", some "unknown", some "unclear", []⟩)
    ∧ determineRequiredPhases ⟨some "weird", some "odd", none, none, []⟩
        = ["planning", "implementation", "verification"] :=
  ⟨⟨((determineRequiredPhases_total_coverage.1 _ ⟨"medium", by decide, rfl⟩ ⟨"low", by decide, rfl⟩).2.1),
    ((determineRequiredPhases_total_coverage.1 _ ⟨"medium", by decide, rfl⟩ ⟨"low", by decide, rfl⟩).2.2)⟩,
   determineRequiredPhases_total_coverage.2 _ (by simp) (by simp) (by simp) (by simp)⟩

/-- C3 counterexample: "update the label" is classified `trivial` although it
matches none of the seven explicit trivial regex patterns. -/
theorem assessComplexity_trivial_without_pattern :
    assessComplexity "update the label" = "trivial"
    ∧ isTrivialPattern (jsToLower "update the label") = false := by
  exact ⟨rfl, rfl⟩

/-- C3 (amended): trivial iff (pattern or UI-text keywords) and score < 4 and
no complex system; otherwise the score mapping. -/
theorem assessComplexity_characterization (request : String) :
    (assessComplexity request = "trivial" ↔
      ((isTrivialPattern (jsToLower request) || isUITextChange (jsToLower request)) = true
       ∧ complexityScore request < 4
       ∧ hasComplexSystem (jsToLower request) = false))
    ∧ (¬((isTrivialPattern (jsToLower request) || isUITextChange (jsToLower request)) = true
         ∧ complexityScore request < 4
         ∧ hasComplexSystem (jsToLower request) = false) →
       assessComplexity request = scoreLabel (complexityScore request)) := by
  unfold assessComplexity
  dsimp only
  constructor
  · constructor
    · intro h
      split_ifs at h with h1 h2
      · simp only [Bool.and_eq_true, decide_eq_true_eq] at h1
        refine ⟨h1.1, h1.2, ?_⟩
        simpa using h2
      · exact absurd h (scoreLabel_ne_trivial _)
      · exact absurd h (scoreLabel_ne_trivial _)
    · rintro ⟨hpat, hscore, hcs⟩
      rw [if_pos, if_pos]
      · simpa using hcs
      · simp [hpat, hscore]
  · intro hn
    split_ifs with h1 h2
    · exfalso
      apply hn
      simp only [Bool.and_eq_true, decide_eq_true_eq] at h1
      exact ⟨h1.1, h1.2, by simpa using h2⟩
    · rfl
    · rfl

/-- C3 witness for the amended claim's second part. -/
theorem assessComplexity_characterization_witness :
    ¬((isTrivialPattern (jsToLower "add a loading spinner to the form")
        || isUITextChange (jsToLower "add a loading spinner to the form")) = true
      ∧ complexityScore "add a loading spinner to the form" < 4
      ∧ hasComplexSystem (jsToLower "add a loading spinner to the form") = false)
    ∧ assessComplexity "add a loading spinner to the form"
        = scoreLabel (complexityScore "add a loading spinner to the form") :=
  have hn : ¬((isTrivialPattern (jsToLower "add a loading spinner to the form")
        || isUITextChange (jsToLower "add a loading spinner to the form")) = true
      ∧ complexityScore "add a loading spinner to the form" < 4
      ∧ hasComplexSystem (jsToLower "add a loading spinner to the form") = false) := by
    intro h
    exact absurd h.1 (by decide)
  ⟨hn, (assessComplexity_characterization "add a loading spinner to the form").2 hn⟩

/-- C4 counterexample. -/
theorem oauth_example_not_as_specified :
    (PromptOrchestrator.analyzeRequest none
      "implement OAuth login with Google and store tokens in the database").complexity = "medium"
    ∧ "deployment" ∉ (PromptOrchestrator.analyzeRequest none
      "implement OAuth login with Google and store tokens in the database").suggestedPhases := by
  constructor
  · rfl
  · decide

/-- C4 (amended). -/
theorem oauth_example_behavior :
    (PromptOrchestrator.analyzeRequest none
      "implement OAuth login with Google and store tokens in the database").riskLevel = "high"
    ∧ "auth" ∈ (PromptOrchestrator.analyzeRequest none
      "implement OAuth login with Google and store tokens in the database").affectedSystems
    ∧ "database" ∈ (PromptOrchestrator.analyzeRequest none
      "implement OAuth login with Google and store tokens in the database").affectedSystems
    ∧ (PromptOrchestrator.analyzeRequest none
      "implement OAuth login with Google and store tokens in the database").complexity = "medium"
    ∧ (PromptOrchestrator.analyzeRequest none
      "implement OAuth login with Google and store tokens in the database").suggestedPhases
        = ["research", "planning", "implementation", "verification"] := by
  refine ⟨rfl, ?_, ?_, rfl, rfl⟩
  · decide
  · decide

/-- helper: suggestion count bounds -/
theorem generateClarificationSuggestions_length (userRequest : String) :
    2 ≤ (generateClarificationSuggestions userRequest).length
    ∧ (generateClarificationSuggestions userRequest).length ≤ 3 := by
  unfold generateClarificationSuggestions
  dsimp only
  split_ifs <;> simp_all

/-- C8: vague requests give the insufficient result with 2–3 suggestions. -/
theorem analyzeRequest_insufficient (userRequest : String)
    (h : isTooVague (jsTrim (jsToLower userRequest)) = true) :
    AnalysisEngine.analyzeRequest userRequest =
      .insufficient "Request needs more specific details to generate safe prompts"
        userRequest (generateClarificationSuggestions userRequest)
    ∧ 2 ≤ (generateClarificationSuggestions userRequest).length
    ∧ (generateClarificationSuggestions userRequest).length ≤ 3 := by
  refine ⟨?_, (generateClarificationSuggestions_length userRequest).1,
          (generateClarificationSuggestions_length userRequest).2⟩
  unfold AnalysisEngine.analyzeRequest
  rw [if_pos h]
  rfl

/-- C8 witness: the input "fix". -/
theorem analyzeRequest_insufficient_witness :
    isTooVague (jsTrim (jsToLower "fix")) = true
    ∧ 2 ≤ (generateClarificationSuggestions "fix").length :=
  ⟨by decide, (analyzeRequest_insufficient "fix" (by decide)).2.1⟩

/-- helper: merging the default (failed-parse) response is the identity. -/
theorem mergeEnhancements_default (w : Workflow) : mergeEnhancements w {} = w := rfl

/-- C5: soft-fail. -/
theorem enhanceWorkflowWithAI_soft_fail (w : Workflow) (outcome : RemoteOutcome)
    (h : match outcome with
         | .netError _ => True
         | .httpError _ _ => True
         | .success t => (extractJsonSlice t).bind parseJson = none) :
    enhanceWorkflowWithAI w outcome = w := by
  cases outcome with
  | netError m => rfl
  | httpError s b => rfl
  | success t =>
    show mergeEnhancements w (parseEnhancedResponse t) = w
    have hp : parseEnhancedResponse t = {} := by
      unfold parseEnhancedResponse
      simp only at h
      cases hex : extractJsonSlice t with
      | none => rfl
      | some slice =>
        rw [hex] at h
        simp only [Option.some_bind] at h
        dsimp only
        rw [h]
    rw [hp]
    rfl

/-- C5 witness. -/
theorem enhanceWorkflowWithAI_soft_fail_witness :
    ((extractJsonSlice "I cannot produce JSON here: {not valid json}").bind parseJson = none)
    ∧ enhanceWorkflowWithAI
        (PromptOrchestrator.orchestrateRequest none "add a loading spinner to the form")
        (.success "I cannot produce JSON here: {not valid json}")
      = PromptOrchestrator.orchestrateRequest none "add a loading spinner to the form"
    ∧ enhanceWorkflowWithAI
        (PromptOrchestrator.orchestrateRequest none "add a loading spinner to the form")
        (.netError "TypeError: Failed to fetch")
      = PromptOrchestrator.orchestrateRequest none "add a loading spinner to the form" :=
  ⟨rfl,
   enhanceWorkflowWithAI_soft_fail _ _ rfl,
   enhanceWorkflowWithAI_soft_fail _ _ trivial⟩

/-- helper: the meta step never changes the classification fields. -/
theorem mergeStepMeta_preserves (w : Workflow) (e : Enhanced) :
    (mergeStepMeta w e).complexity = w.complexity
    ∧ (mergeStepMeta w e).riskLevel = w.riskLevel
    ∧ (mergeStepMeta w e).analysis = w.analysis := by
  unfold mergeStepMeta
  cases e.confidence <;> cases e.riskFactors <;> cases e.changeTypes <;>
    dsimp only <;> split_ifs <;> exact ⟨rfl, rfl, rfl⟩

/-- helper: the prompt-merge step only changes the prompt list. -/
theorem mergeStepPrompts_preserves (w : Workflow) (e : Enhanced) :
    (mergeStepPrompts w e).complexity = w.complexity
    ∧ (mergeStepPrompts w e).riskLevel = w.riskLevel
    ∧ (mergeStepPrompts w e).analysis = w.analysis := ⟨rfl, rfl, rfl⟩

/-- helper: the collapse step only changes the prompt list. -/
theorem mergeStepCollapse_preserves (w : Workflow) :
    (mergeStepCollapse w).complexity = w.complexity
    ∧ (mergeStepCollapse w).riskLevel = w.riskLevel
    ∧ (mergeStepCollapse w).analysis = w.analysis := by
  unfold mergeStepCollapse
  split_ifs <;> exact ⟨rfl, rfl, rfl⟩

/-- helper: the classification fields of the merge result are those of the
analysis-override step. -/
theorem mergeEnhancements_classification (w : Workflow) (e : Enhanced) :
    (mergeEnhancements w e).complexity = (mergeStepAnalysis w e).1.complexity
    ∧ (mergeEnhancements w e).riskLevel = (mergeStepAnalysis w e).1.riskLevel
    ∧ (mergeEnhancements w e).analysis = (mergeStepAnalysis w e).1.analysis := by
  unfold mergeEnhancements
  dsimp only
  split_ifs with hemp
  · exact mergeStepMeta_preserves (mergeStepAnalysis w e).1 e
  · have h1 := mergeStepMeta_preserves (mergeStepAnalysis w e).1 e
    have h2 := mergeStepPrompts_preserves (mergeStepMeta (mergeStepAnalysis w e).1 e) e
    have h3 := mergeStepCollapse_preserves
      (mergeStepPrompts (mergeStepMeta (mergeStepAnalysis w e).1 e) e)
    exact ⟨(h3.1.trans h2.1).trans h1.1,
           (h3.2.1.trans h2.2.1).trans h1.2.1,
           (h3.2.2.trans h2.2.2).trans h1.2.2⟩

/-- C6 theorem. -/
theorem mergeEnhancements_anti_override (w : Workflow) (e : Enhanced) (ea : EnhAnalysis)
    (hA : e.analysis = some ea)
    (hTriv : w.analysis.complexity = "trivial")
    (hTruthy : optTruthyS ea.complexity = true)
    (hNe : ¬(ea.complexity = some "trivial"))
    (hText : strContains (jsToLower w.originalRequest) "text" = true
           ∨ strContains (jsToLower w.originalRequest) "label" = true
           ∨ strContains (jsToLower w.originalRequest) "to say" = true
           ∨ strContains (jsToLower w.originalRequest) "instead of" = true) :
    (mergeEnhancements w e).complexity = "trivial"
    ∧ (mergeEnhancements w e).riskLevel = "low"
    ∧ (mergeEnhancements w e).analysis.complexity = "trivial"
    ∧ (mergeEnhancements w e).analysis.riskLevel = "low" := by
  have hne : ¬(w.originalRequest = "") := by
    intro h0
    rcases hText with h | h | h | h <;> (rw [h0] at h; exact absurd h (by decide))
  have hg : mergeAntiOverrideGuard w ea = true := by
    unfold mergeAntiOverrideGuard
    simp only [Bool.and_eq_true, decide_eq_true_eq, Bool.or_eq_true, Bool.not_eq_true',
      decide_eq_false_iff_not]
    refine ⟨⟨hTriv, hTruthy, hNe⟩, hne, ?_⟩
    rcases hText with h | h | h | h <;> tauto
  have hstep : (mergeStepAnalysis w e).1.complexity = "trivial"
      ∧ (mergeStepAnalysis w e).1.riskLevel = "low"
      ∧ (mergeStepAnalysis w e).1.analysis.complexity = "trivial"
      ∧ (mergeStepAnalysis w e).1.analysis.riskLevel = "low" := by
    unfold mergeStepAnalysis
    rw [hA]
    simp only [hg, if_true]
    simp [jsOrS]
  have hf := mergeEnhancements_classification w e
  refine ⟨hf.1.trans hstep.1, hf.2.1.trans hstep.2.1, ?_, ?_⟩
  · rw [hf.2.2]; exact hstep.2.2.1
  · rw [hf.2.2]; exact hstep.2.2.2

/-- C6 witness. -/
theorem mergeEnhancements_anti_override_witness :
    ({ analysis := some eaHighSample } : Enhanced).analysis = some eaHighSample
    ∧ wTrivSample.analysis.complexity = "trivial"
    ∧ optTruthyS eaHighSample.complexity = true
    ∧ ¬(eaHighSample.complexity = some "trivial")
    ∧ strContains (jsToLower wTrivSample.originalRequest) "text" = true
    ∧ (mergeEnhancements wTrivSample { analysis := some eaHighSample }).complexity = "trivial"
    ∧ (mergeEnhancements wTrivSample { analysis := some eaHighSample }).riskLevel = "low" :=
  have h := mergeEnhancements_anti_override wTrivSample { analysis := some eaHighSample }
    eaHighSample rfl rfl rfl (by decide) (Or.inl (by decide))
  ⟨rfl, rfl, rfl, by decide, by decide, h.1, h.2.1⟩

/-- C10 counterexample: empty remote prompts, but the prompt list changes
(a clarification record is prepended). -/
theorem merge_empty_prompts_cex :
    eClarifySample.prompts = []
    ∧ wSampleApi.prompts.length = 4
    ∧ (mergeEnhancements wSampleApi eClarifySample).prompts.length = 5 := by
  refine ⟨rfl, rfl, rfl⟩

/-- C10 (amended). -/
theorem mergeEnhancements_empty_prompts_frame (w : Workflow) (e : Enhanced) (ea : EnhAnalysis)
    (c r : String) (q : ℚ) (rf ct : List String)
    (hp : e.prompts = [])
    (hwq : w.clarifyingQuestions = none)
    (heq : e.clarifyingQuestions = none ∨ e.clarifyingQuestions = some [])
    (hA : e.analysis = some ea)
    (hc : ea.complexity = some c) (hc0 : ¬(c = ""))
    (hr : ea.riskLevel = some r) (hr0 : ¬(r = ""))
    (hcf : e.confidence = some q)
    (hrf : e.riskFactors = some rf)
    (hct : e.changeTypes = some ct)
    (hNoGuard : mergeAntiOverrideGuard w ea = false) :
    (mergeEnhancements w e).prompts = w.prompts
    ∧ (mergeEnhancements w e).complexity = c
    ∧ (mergeEnhancements w e).riskLevel = r
    ∧ (mergeEnhancements w e).analysis.complexity = c
    ∧ (mergeEnhancements w e).analysis.riskLevel = r
    ∧ (mergeEnhancements w e).confidence = q
    ∧ (mergeEnhancements w e).riskFactors = rf
    ∧ (mergeEnhancements w e).changeTypes = ct := by
  have hstep : (mergeStepAnalysis w e).1.prompts = w.prompts
      ∧ (mergeStepAnalysis w e).1.complexity = c
      ∧ (mergeStepAnalysis w e).1.riskLevel = r
      ∧ (mergeStepAnalysis w e).1.analysis.complexity = c
      ∧ (mergeStepAnalysis w e).1.analysis.riskLevel = r
      ∧ (mergeStepAnalysis w e).1.confidence = w.confidence
      ∧ (mergeStepAnalysis w e).1.riskFactors = w.riskFactors
      ∧ (mergeStepAnalysis w e).1.changeTypes = w.changeTypes
      ∧ (mergeStepAnalysis w e).1.clarifyingQuestions = w.clarifyingQuestions
      ∧ (mergeStepAnalysis w e).1.originalRequest = w.originalRequest := by
    unfold mergeStepAnalysis
    rw [hA]
    simp only [hNoGuard, Bool.false_eq_true, if_false, hc, hr, Option.getD_some]
    simp [jsOrS, hc0, hr0]
  have hmain : mergeEnhancements w e = mergeStepMeta (mergeStepAnalysis w e).1 e := by
    unfold mergeEnhancements
    rw [hp]
    rfl
  rw [hmain]
  have hq0 : (e.clarifyingQuestions.getD []).length = 0 := by
    rcases heq with h | h <;> rw [h] <;> rfl
  have hcond : ¬(0 < (e.clarifyingQuestions.getD []).length) := by
    rw [hq0]
    omega
  unfold mergeStepMeta
  rw [hcf, hrf, hct]
  dsimp only
  rw [if_neg hcond]
  split_ifs with hsuf hcl
  · exfalso
    rw [hstep.2.2.2.2.2.2.2.2.1, hwq] at hcl
    simp at hcl
  · exact ⟨hstep.1, hstep.2.1, hstep.2.2.1, hstep.2.2.2.1, hstep.2.2.2.2.1, rfl, rfl, rfl⟩
  · exact ⟨hstep.1, hstep.2.1, hstep.2.2.1, hstep.2.2.2.1, hstep.2.2.2.2.1, rfl, rfl, rfl⟩

theorem mergeEnhancements_empty_prompts_frame_witness :
    eOverrideSample.prompts = []
    ∧ mergeAntiOverrideGuard wSampleApi { complexity := some "high", riskLevel := some "high" } = false
    ∧ (mergeEnhancements wSampleApi eOverrideSample).prompts = wSampleApi.prompts
    ∧ (mergeEnhancements wSampleApi eOverrideSample).complexity = "high"
    ∧ (mergeEnhancements wSampleApi eOverrideSample).riskFactors = ["external integration"] :=
  have h := mergeEnhancements_empty_prompts_frame wSampleApi eOverrideSample
    { complexity := some "high", riskLevel := some "high" }
    "high" "high" 0.9 ["external integration"] ["backend"]
    rfl rfl (Or.inl rfl) rfl rfl (by decide) rfl (by decide) rfl rfl rfl (by rfl)
  ⟨rfl, by rfl, h.1, h.2.1, h.2.2.2.2.2.2.1⟩

/-- C1 counterexample. -/
theorem mergeEnhancements_trivial_collapse_cex :
    ((mergeEnhancements wSampleApi eTrivEmpty).complexity = "trivial"
      ∧ (mergeEnhancements wSampleApi eTrivEmpty).prompts.length = 4)
    ∧ ((mergeEnhancements wSampleApi eTrivShadow).complexity = "trivial"
      ∧ (mergeEnhancements wSampleApi eTrivShadow).prompts.length = 2
      ∧ ((mergeEnhancements wSampleApi eTrivShadow).prompts.map fun p => p.category)
          = ["planning", "validation"]) :=
  ⟨⟨rfl, rfl⟩, ⟨rfl, rfl, rfl⟩⟩

/-- C1 (amended): with a non-empty remote prompt list, a trivial merged
complexity and both matchers finding a record, the collapse returns exactly
two records.  When the two finds land on distinct records, the result has
phases 1 and 2, the fixed titles, and the categories of the found records
(which need not be planning/implementation).  When both finds land on the
same record, that one record is mutated twice and pushed twice: both
positions carry phase 2 and the title "Implementation". -/
theorem mergeEnhancements_trivial_collapse (w : Workflow) (e : Enhanced)
    (hne : e.prompts.isEmpty = false)
    (htriv : (mergePreCollapse w e).complexity = "trivial"
      ∨ (mergePreCollapse w e).analysis.complexity = "trivial")
    (hP : ((mergePreCollapse w e).prompts.find? planningMatchFn).isSome = true)
    (hI : ((mergePreCollapse w e).prompts.find? implementationMatchFn).isSome = true) :
    (mergeEnhancements w e).prompts.length = 2
    ∧ (¬((mergePreCollapse w e).prompts.find? planningMatchFn
          = (mergePreCollapse w e).prompts.find? implementationMatchFn) →
        ((mergeEnhancements w e).prompts.map fun p => p.phase) = [some 1, some 2]
        ∧ ((mergeEnhancements w e).prompts.map fun p => p.title)
            = ["Planning Phase (Simplified)", "Implementation"]
        ∧ ((mergeEnhancements w e).prompts.map fun p => p.category)
            = [(Option.get _ hP).category, (Option.get _ hI).category])
    ∧ ((mergePreCollapse w e).prompts.find? planningMatchFn
          = (mergePreCollapse w e).prompts.find? implementationMatchFn →
        ((mergeEnhancements w e).prompts.map fun p => p.phase) = [some 2, some 2]
        ∧ ((mergeEnhancements w e).prompts.map fun p => p.title)
            = ["Implementation", "Implementation"]) := by
  have hmain : mergeEnhancements w e =
      { mergeStepCollapse (mergePreCollapse w e) with
          enhanced := true, aiAssessment := (mergeStepAnalysis w e).2 } := by
    unfold mergeEnhancements mergePreCollapse
    rw [hne]
    rfl
  rcases Option.isSome_iff_exists.mp hP with ⟨pp, hpp⟩
  rcases Option.isSome_iff_exists.mp hI with ⟨ip, hip⟩
  by_cases hal : pp = ip
  · have hfe : (mergePreCollapse w e).prompts.find? planningMatchFn
        = (mergePreCollapse w e).prompts.find? implementationMatchFn := by
      rw [hpp, hip, hal]
    have hcol : mergeStepCollapse (mergePreCollapse w e) =
        { mergePreCollapse w e with prompts :=
            [collapsedImplementation pp (mergePreCollapse w e).originalRequest,
             collapsedImplementation pp (mergePreCollapse w e).originalRequest] } := by
      unfold mergeStepCollapse
      rw [if_pos htriv]
      dsimp only
      rw [show ((mergePreCollapse w e).prompts.find? fun p =>
            p.category = "planning" || strContains (jsToLower p.title) "planning")
            = some pp from hpp,
          show ((mergePreCollapse w e).prompts.find? fun p =>
            p.category = "implementation" || strContains (jsToLower p.title) "implementation")
            = some ip from hip]
      dsimp only
      rw [if_pos hal]
      rfl
    rw [hmain, hcol]
    exact ⟨rfl, fun hne2 => absurd hfe hne2, fun _ => ⟨rfl, rfl⟩⟩
  · have hcol : mergeStepCollapse (mergePreCollapse w e) =
        { mergePreCollapse w e with prompts :=
            [collapsedPlanning pp (mergePreCollapse w e).originalRequest,
             collapsedImplementation ip (mergePreCollapse w e).originalRequest] } := by
      unfold mergeStepCollapse
      rw [if_pos htriv]
      dsimp only
      rw [show ((mergePreCollapse w e).prompts.find? fun p =>
            p.category = "planning" || strContains (jsToLower p.title) "planning")
            = some pp from hpp,
          show ((mergePreCollapse w e).prompts.find? fun p =>
            p.category = "implementation" || strContains (jsToLower p.title) "implementation")
            = some ip from hip]
      dsimp only
      rw [if_neg hal]
      rfl
    rw [hmain, hcol]
    refine ⟨rfl, fun _ => ⟨rfl, rfl, ?_⟩, fun hfe => ?_⟩
    · simp only [List.map, hpp, hip, Option.get_some]
      rfl
    · exfalso
      rw [hpp, hip] at hfe
      exact hal (Option.some.inj hfe)

theorem mergeEnhancements_trivial_collapse_witness :
    eTrivShadow.prompts.isEmpty = false
    ∧ (mergeEnhancements wSampleApi eTrivShadow).prompts.length = 2
    ∧ ((mergeEnhancements wSampleApi eTrivShadow).prompts.map fun p => p.title)
        = ["Planning Phase (Simplified)", "Implementation"]
    ∧ ((mergeEnhancements wSampleApi eAliasSample).prompts.map fun p => p.phase)
        = [some 2, some 2]
    ∧ ((mergeEnhancements wSampleApi eAliasSample).prompts.map fun p => p.title)
        = ["Implementation", "Implementation"] :=
  have h1 := mergeEnhancements_trivial_collapse wSampleApi eTrivShadow rfl (Or.inl rfl) rfl rfl
  have h2 := mergeEnhancements_trivial_collapse wSampleApi eAliasSample rfl (Or.inl rfl) rfl rfl
  ⟨rfl, h1.1, (h1.2.1 (by decide)).2.1, (h2.2.2 (by rfl)).1, (h2.2.2 (by rfl)).2⟩

/-! Helper lemmas about `enumFrom` indices. -/

theorem le_fst_of_mem_enumFrom {α : Type} :
    ∀ (l : List α) (k : Nat) (x : Nat × α), x ∈ List.enumFrom k l → k ≤ x.1 := by
  intro l
  induction l with
  | nil => intro k x hx; cases hx
  | cons a l ih =>
    intro k x hx
    cases hx with
    | head => exact le_refl k
    | tail _ h => exact Nat.le_of_succ_le (ih (k + 1) x h)

theorem pairwise_fst_lt_enumFrom {α : Type} :
    ∀ (l : List α) (k : Nat), List.Pairwise (fun x y : Nat × α => x.1 < y.1) (List.enumFrom k l) := by
  intro l
  induction l with
  | nil => intro k; exact List.Pairwise.nil
  | cons a l ih =>
    intro k
    refine List.Pairwise.cons ?_ (ih (k + 1))
    intro y hy
    exact Nat.lt_of_succ_le (le_fst_of_mem_enumFrom l (k + 1) y hy)

/-! Sortedness of the generated workflow prompt list. -/

theorem mkImplRecords_sorted (a : Analysis) (steps : List ImplStep) (n : Nat) :
    List.Sorted promptLE (mkImplRecords a steps n)
    ∧ ∀ p ∈ mkImplRecords a steps n, jsOrQ p.phase = (n : ℚ) := by
  constructor
  · show List.Pairwise promptLE (mkImplRecords a steps n)
    unfold mkImplRecords
    rw [List.pairwise_map]
    refine (pairwise_fst_lt_enumFrom steps 0).imp ?_
    intro x y hxy
    refine Or.inr ⟨rfl, ?_⟩
    dsimp only
    split_ifs with hlen
    · simp only [jsOrQ, Option.getD_some]
      exact_mod_cast Nat.succ_le_succ (Nat.le_of_lt hxy)
    · exact le_refl _
  · intro p hp
    rcases List.mem_map.mp hp with ⟨x, _, rfl⟩
    rfl

theorem cons_step_sorted (rec : PromptRecord) (rest : List PromptRecord) (n len : Nat)
    (hrec : rec.phase = some (n : ℚ))
    (ih : List.Sorted promptLE rest
      ∧ ∀ p ∈ rest, ((n + 1 : Nat) : ℚ) ≤ jsOrQ p.phase
          ∧ jsOrQ p.phase < ((n + 1 + len : Nat) : ℚ)) :
    List.Sorted promptLE (rec :: rest)
    ∧ ∀ p ∈ rec :: rest, ((n : Nat) : ℚ) ≤ jsOrQ p.phase
        ∧ jsOrQ p.phase < ((n + (len + 1) : Nat) : ℚ) := by
  have hq : jsOrQ rec.phase = (n : ℚ) := by rw [hrec]; rfl
  have hlt : ((n : Nat) : ℚ) < ((n + 1 : Nat) : ℚ) := by exact_mod_cast Nat.lt_succ_self n
  have heqn : ((n + 1 + len : Nat) : ℚ) = ((n + (len + 1) : Nat) : ℚ) := by
    congr 1
    omega
  constructor
  · refine List.sorted_cons.mpr ⟨fun b hb => Or.inl ?_, ih.1⟩
    rw [hq]
    exact lt_of_lt_of_le hlt (ih.2 b hb).1
  · intro p hp
    cases hp with
    | head =>
      rw [hq]
      refine ⟨le_refl _, ?_⟩
      rw [← heqn]
      exact_mod_cast (by omega : n < n + 1 + len)
    | tail _ hp =>
      obtain ⟨h1, h2⟩ := ih.2 p hp
      exact ⟨le_trans (le_of_lt hlt) h1, heqn ▸ h2⟩

theorem skip_step_sorted (l : List PromptRecord) (n len : Nat)
    (ih : List.Sorted promptLE l
      ∧ ∀ p ∈ l, ((n : Nat) : ℚ) ≤ jsOrQ p.phase ∧ jsOrQ p.phase < ((n + len : Nat) : ℚ)) :
    List.Sorted promptLE l
    ∧ ∀ p ∈ l, ((n : Nat) : ℚ) ≤ jsOrQ p.phase ∧ jsOrQ p.phase < ((n + (len + 1) : Nat) : ℚ) := by
  refine ⟨ih.1, fun p hp => ⟨(ih.2 p hp).1, lt_of_lt_of_le (ih.2 p hp).2 ?_⟩⟩
  exact_mod_cast (by omega : n + len ≤ n + (len + 1))

theorem block_step_sorted (blk rest : List PromptRecord) (n len : Nat)
    (hblks : List.Sorted promptLE blk)
    (hblkp : ∀ p ∈ blk, jsOrQ p.phase = (n : ℚ))
    (ih : List.Sorted promptLE rest
      ∧ ∀ p ∈ rest, ((n + 1 : Nat) : ℚ) ≤ jsOrQ p.phase
          ∧ jsOrQ p.phase < ((n + 1 + len : Nat) : ℚ)) :
    List.Sorted promptLE (blk ++ rest)
    ∧ ∀ p ∈ blk ++ rest, ((n : Nat) : ℚ) ≤ jsOrQ p.phase
        ∧ jsOrQ p.phase < ((n + (len + 1) : Nat) : ℚ) := by
  have hlt : ((n : Nat) : ℚ) < ((n + 1 : Nat) : ℚ) := by exact_mod_cast Nat.lt_succ_self n
  have heqn : ((n + 1 + len : Nat) : ℚ) = ((n + (len + 1) : Nat) : ℚ) := by
    congr 1
    omega
  constructor
  · refine List.pairwise_append.mpr ⟨hblks, ih.1, ?_⟩
    intro a ha b hb
    refine Or.inl ?_
    rw [hblkp a ha]
    exact lt_of_lt_of_le hlt (ih.2 b hb).1
  · intro p hp
    rcases List.mem_append.mp hp with hp | hp
    · rw [hblkp p hp]
      refine ⟨le_refl _, ?_⟩
      rw [← heqn]
      exact_mod_cast (by omega : n < n + 1 + len)
    · obtain ⟨h1, h2⟩ := ih.2 p hp
      exact ⟨le_trans (le_of_lt hlt) h1, heqn ▸ h2⟩

theorem buildWorkflowPrompts_sorted (ctx : Option AppContext) (req : String) (a : Analysis)
    (rq : List ResearchQuestion) (phases : List String) :
    ∀ (n : Nat),
      List.Sorted promptLE (buildWorkflowPrompts ctx req a rq phases n)
      ∧ ∀ p ∈ buildWorkflowPrompts ctx req a rq phases n,
          ((n : Nat) : ℚ) ≤ jsOrQ p.phase
          ∧ jsOrQ p.phase < ((n + phases.length : Nat) : ℚ) := by
  induction phases with
  | nil =>
    intro n
    exact ⟨List.Pairwise.nil, fun p hp => absurd hp (List.not_mem_nil p)⟩
  | cons ph rest ih =>
    intro n
    show List.Sorted promptLE (buildWorkflowPrompts ctx req a rq (ph :: rest) n)
      ∧ ∀ p ∈ buildWorkflowPrompts ctx req a rq (ph :: rest) n,
          ((n : Nat) : ℚ) ≤ jsOrQ p.phase
          ∧ jsOrQ p.phase < ((n + (rest.length + 1) : Nat) : ℚ)
    unfold buildWorkflowPrompts
    split_ifs with h1 h2 h3 h4 h5 h6 h7 h8 h9
    · exact cons_step_sorted _ _ n rest.length rfl (ih (n + 1))
    · exact cons_step_sorted _ _ n rest.length rfl (ih (n + 1))
    · exact cons_step_sorted _ _ n rest.length rfl (ih (n + 1))
    · exact cons_step_sorted _ _ n rest.length rfl (ih (n + 1))
    · exact cons_step_sorted _ _ n rest.length rfl (ih (n + 1))
    · exact block_step_sorted _ _ n rest.length
        (mkImplRecords_sorted a _ n).1 (mkImplRecords_sorted a _ n).2 (ih (n + 1))
    · exact cons_step_sorted _ _ n rest.length rfl (ih (n + 1))
    · exact cons_step_sorted _ _ n rest.length rfl (ih (n + 1))
    · exact cons_step_sorted _ _ n rest.length rfl (ih (n + 1))
    · exact skip_step_sorted _ n rest.length (ih n)

theorem determineRequiredPhases_length (pa : PhaseAnalysis) :
    (determineRequiredPhases pa).length ≤ 7 := by
  unfold determineRequiredPhases
  split_ifs <;> simp

theorem analyzeRequest_suggestedPhases (ctx : Option AppContext) (req : String) :
    ∃ pa, (PromptOrchestrator.analyzeRequest ctx req).suggestedPhases
      = determineRequiredPhases pa := by
  unfold PromptOrchestrator.analyzeRequest
  cases ctx <;> exact ⟨_, rfl⟩

theorem orchestrateRequest_sorted (ctx : Option AppContext) (req : String) :
    List.Sorted promptLE (orchestrateRequest ctx req).prompts
    ∧ ∀ p ∈ (orchestrateRequest ctx req).prompts,
        0 < jsOrQ p.phase ∧ jsOrQ p.phase < 99 := by
  obtain ⟨pa, hpa⟩ := analyzeRequest_suggestedPhases ctx req
  have hlen : (PromptOrchestrator.analyzeRequest ctx req).suggestedPhases.length ≤ 7 := by
    rw [hpa]
    exact determineRequiredPhases_length pa
  have hb := buildWorkflowPrompts_sorted ctx req (PromptOrchestrator.analyzeRequest ctx req)
    (generateResearchQuestions req (PromptOrchestrator.analyzeRequest ctx req))
    (PromptOrchestrator.analyzeRequest ctx req).suggestedPhases 1
  have hp : (orchestrateRequest ctx req).prompts
      = buildWorkflowPrompts ctx req (PromptOrchestrator.analyzeRequest ctx req)
          (generateResearchQuestions req (PromptOrchestrator.analyzeRequest ctx req))
          (PromptOrchestrator.analyzeRequest ctx req).suggestedPhases 1 := rfl
  rw [hp]
  refine ⟨hb.1, fun p hmem => ?_⟩
  obtain ⟨h1, h2⟩ := hb.2 p hmem
  constructor
  · exact lt_of_lt_of_le (by norm_num) h1
  · refine lt_of_lt_of_le h2 ?_
    have : (1 + (PromptOrchestrator.analyzeRequest ctx req).suggestedPhases.length : Nat) ≤ 99 := by
      omega
    exact_mod_cast this

/-! Prompt-list shape of the merge steps. -/

theorem mergeStepAnalysis_prompts_eq (w : Workflow) (e : Enhanced) :
    (mergeStepAnalysis w e).1.prompts = w.prompts := by
  unfold mergeStepAnalysis
  cases e.analysis <;> dsimp only <;> split_ifs <;> rfl

theorem mergeStepMeta_prompts_shape (w : Workflow) (e : Enhanced) :
    (mergeStepMeta w e).prompts = w.prompts
    ∨ ∃ c : PromptRecord, (mergeStepMeta w e).prompts = c :: w.prompts
        ∧ c.phase = some 0 ∧ c.subPhase = none := by
  unfold mergeStepMeta
  cases e.confidence <;> cases e.riskFactors <;> cases e.changeTypes <;> dsimp only <;>
    split_ifs <;>
    first
      | exact Or.inl rfl
      | exact Or.inr ⟨_, rfl, rfl, rfl⟩

theorem mem_foldl_enh :
    ∀ (ps : List EnhPrompt) (init : List PromptRecord) (x : PromptRecord),
      x ∈ ps.foldl (fun acc p =>
        if acc.any fun q => recKey q = enhKey p then acc else acc ++ [enhPromptToRecord p]) init →
      x ∈ init ∨ ∃ p ∈ ps, x = enhPromptToRecord p := by
  intro ps
  induction ps with
  | nil =>
    intro init x hx
    exact Or.inl hx
  | cons p ps ih =>
    intro init x hx
    rw [List.foldl_cons] at hx
    rcases ih _ x hx with hin | ⟨q, hq, rfl⟩
    · by_cases hc : (init.any fun q => recKey q = enhKey p) = true
      · rw [if_pos hc] at hin
        exact Or.inl hin
      · rw [if_neg hc] at hin
        rcases List.mem_append.mp hin with h | h
        · exact Or.inl h
        · exact Or.inr ⟨p, List.mem_cons_self p ps, List.mem_singleton.mp h⟩
    · exact Or.inr ⟨q, List.mem_cons_of_mem p hq, rfl⟩

theorem mergeStepPrompts_facts (w : Workflow) (e : Enhanced)
    (hws : ∀ p ∈ w.prompts, jsOrQ p.phase < 99)
    (heb : ∀ p ∈ e.prompts, jsOrQ p.phase < 99) :
    List.Sorted promptLE (mergeStepPrompts w e).prompts
    ∧ ∀ p ∈ (mergeStepPrompts w e).prompts, jsOrQ p.phase < 99 := by
  unfold mergeStepPrompts
  dsimp only
  constructor
  · exact List.sorted_insertionSort promptLE _
  · intro p hp
    have hp2 := (List.perm_insertionSort promptLE _).mem_iff.mp hp
    rcases mem_foldl_enh e.prompts _ p hp2 with hin | ⟨q, hq, rfl⟩
    · rcases List.mem_map.mp hin with ⟨y, hy, rfl⟩
      have : ∀ o : Option EnhPrompt,
          jsOrQ (match o with
            | some enhancement =>
              { y with
                content := jsOrS (enhancement.content.getD "") y.content
                context_relevance := some (enhancement.context_relevance.getD [])
                success_criteria := some (enhancement.success_criteria.getD [])
                enhanced := some true }
            | none => y).phase < 99 := by
        intro o
        cases o <;> exact hws y hy
      exact this _
    · exact heb q hq

/-! The collapse step on an already-sorted bounded list. -/

theorem mergeStepCollapse_facts (w : Workflow)
    (hws : List.Sorted promptLE w.prompts)
    (hwb : ∀ p ∈ w.prompts, jsOrQ p.phase < 99) :
    List.Sorted promptLE (mergeStepCollapse w).prompts
    ∧ ∀ p ∈ (mergeStepCollapse w).prompts, jsOrQ p.phase < 99 := by
  unfold mergeStepCollapse
  split_ifs with htr
  · dsimp only
    have h12 : ∀ x y : PromptRecord, x.phase = some 1 → y.phase = some 2 →
        List.Sorted promptLE [x, y] ∧ ∀ p ∈ [x, y], jsOrQ p.phase < 99 := by
      intro x y hx hy
      constructor
      · refine List.sorted_cons.mpr ⟨?_, List.sorted_singleton y⟩
        intro b hb
        rcases List.mem_singleton.mp hb with rfl
        refine Or.inl ?_
        rw [hx, hy]
        norm_num [jsOrQ]
      · intro p hp
        cases hp with
        | head => rw [hx]; norm_num [jsOrQ]
        | tail _ hp =>
          rcases List.mem_singleton.mp hp with rfl
          rw [hy]; norm_num [jsOrQ]
    have h1 : ∀ x : PromptRecord, x.phase = some 1 →
        List.Sorted promptLE [x] ∧ ∀ p ∈ [x], jsOrQ p.phase < 99 := by
      intro x hx
      refine ⟨List.sorted_singleton x, fun p hp => ?_⟩
      rcases List.mem_singleton.mp hp with rfl
      rw [hx]; norm_num [jsOrQ]
    have h2 : ∀ x : PromptRecord, x.phase = some 2 →
        List.Sorted promptLE [x] ∧ ∀ p ∈ [x], jsOrQ p.phase < 99 := by
      intro x hx
      refine ⟨List.sorted_singleton x, fun p hp => ?_⟩
      rcases List.mem_singleton.mp hp with rfl
      rw [hx]; norm_num [jsOrQ]
    have h22 : ∀ x y : PromptRecord, x.phase = some 2 → y.phase = some 2 →
        x.subPhase = y.subPhase →
        List.Sorted promptLE [x, y] ∧ ∀ p ∈ [x, y], jsOrQ p.phase < 99 := by
      intro x y hx hy hsub
      constructor
      · refine List.sorted_cons.mpr ⟨?_, List.sorted_singleton y⟩
        intro b hb
        rcases List.mem_singleton.mp hb with rfl
        refine Or.inr ⟨?_, ?_⟩
        · rw [hx, hy]
        · rw [hsub]
      · intro p hp
        cases hp with
        | head => rw [hx]; norm_num [jsOrQ]
        | tail _ hp =>
          rcases List.mem_singleton.mp hp with rfl
          rw [hy]; norm_num [jsOrQ]
    cases hfp : w.prompts.find? fun p =>
        p.category = "planning" || strContains (jsToLower p.title) "planning" with
    | some pp =>
      cases hfi : w.prompts.find? fun p =>
          p.category = "implementation" || strContains (jsToLower p.title) "implementation" with
      | some ip =>
        dsimp only
        by_cases hal : pp = ip
        · simp only [if_pos hal]
          exact h22 _ _ rfl rfl rfl
        · simp only [if_neg hal]
          exact h12 _ _ rfl rfl
      | none => exact h1 _ rfl
    | none =>
      cases hfi : w.prompts.find? fun p =>
          p.category = "implementation" || strContains (jsToLower p.title) "implementation" with
      | some ip => exact h2 _ rfl
      | none => exact h12 _ _ rfl rfl
  · exact ⟨hws, hwb⟩

/-! `mergeEnhancements` keeps the list sorted and phase-bounded. -/

theorem mergeEnhancements_sorted (w : Workflow) (e : Enhanced)
    (hws : List.Sorted promptLE w.prompts)
    (hwb : ∀ p ∈ w.prompts, 0 < jsOrQ p.phase ∧ jsOrQ p.phase < 99)
    (heb : ∀ p ∈ e.prompts, jsOrQ p.phase < 99) :
    List.Sorted promptLE (mergeEnhancements w e).prompts
    ∧ ∀ p ∈ (mergeEnhancements w e).prompts, jsOrQ p.phase < 99 := by
  have h1 := mergeStepAnalysis_prompts_eq w e
  have hmeta :
      List.Sorted promptLE (mergeStepMeta (mergeStepAnalysis w e).1 e).prompts
      ∧ ∀ p ∈ (mergeStepMeta (mergeStepAnalysis w e).1 e).prompts, jsOrQ p.phase < 99 := by
    rcases mergeStepMeta_prompts_shape (mergeStepAnalysis w e).1 e with hsh | ⟨c, hsh, hc, _⟩
    · rw [hsh, h1]
      exact ⟨hws, fun p hp => (hwb p hp).2⟩
    · rw [hsh, h1]
      have hcq : jsOrQ c.phase = 0 := by rw [hc]; rfl
      constructor
      · refine List.sorted_cons.mpr ⟨fun b hb => Or.inl ?_, hws⟩
        rw [hcq]
        exact (hwb b hb).1
      · intro p hp
        cases hp with
        | head => rw [hcq]; norm_num
        | tail _ hp => exact (hwb p hp).2
  by_cases hne : e.prompts.isEmpty = true
  · have hres : mergeEnhancements w e = mergeStepMeta (mergeStepAnalysis w e).1 e := by
      unfold mergeEnhancements
      rw [hne]
      rfl
    rw [hres]
    exact hmeta
  · have hne' : e.prompts.isEmpty = false := Bool.not_eq_true _ ▸ Bool.eq_false_iff.mpr hne
    have hres : (mergeEnhancements w e).prompts =
        (mergeStepCollapse (mergeStepPrompts (mergeStepMeta (mergeStepAnalysis w e).1 e) e)).prompts := by
      unfold mergeEnhancements
      rw [hne']
      rfl
    rw [hres]
    have hsp := mergeStepPrompts_facts (mergeStepMeta (mergeStepAnalysis w e).1 e) e hmeta.2 heb
    exact mergeStepCollapse_facts _ hsp.1 hsp.2

/-! The safety wrapper keeps the order and appends phase 99 at the end. -/

theorem addSafetyWrappers_sorted (prompts : List PromptRecord) (riskLevel : String)
    (hs : List.Sorted promptLE prompts)
    (hb : ∀ p ∈ prompts, jsOrQ p.phase < 99) :
    List.Sorted promptLE (addSafetyWrappers prompts riskLevel) := by
  unfold addSafetyWrappers
  dsimp only
  have hmap : List.Sorted promptLE (prompts.map fun prompt =>
      { prompt with content :=
          wrapPromptWithFullSafety prompt.content (jsOrS prompt.risk riskLevel) prompt.category }) := by
    show List.Pairwise promptLE _
    rw [List.pairwise_map]
    exact hs.imp fun h => h
  split_ifs with h
  · refine List.pairwise_append.mpr ⟨hmap, List.pairwise_singleton _ _, ?_⟩
    intro a ha b hb'
    rcases List.mem_singleton.mp hb' with rfl
    rcases List.mem_map.mp ha with ⟨y, hy, rfl⟩
    refine Or.inl ?_
    have h99 : jsOrQ (createFinalVerificationPrompt riskLevel).phase = 99 := rfl
    rw [h99]
    exact hb y hy
  · exact hmap

/-- C9 (amended). -/
theorem analyzeRequest_sorted (ctx : Option AppContext) (userRequest : String)
    (apiKey : Option String) (outcome : RemoteOutcome)
    (hrem : ∀ t, outcome = RemoteOutcome.success t →
      ∀ p ∈ (parseEnhancedResponse t).prompts, jsOrQ p.phase < 99) :
    List.Sorted promptLE
      (EnhancedAIAnalysisEngine.analyzeRequest ctx userRequest apiKey outcome).prompts := by
  have horch := orchestrateRequest_sorted ctx userRequest
  unfold EnhancedAIAnalysisEngine.analyzeRequest
  cases apiKey with
  | none =>
    exact addSafetyWrappers_sorted _ _ horch.1 fun p hp => (horch.2 p hp).2
  | some k =>
    dsimp only
    unfold enhanceWorkflowWithAI
    cases outcome with
    | netError m =>
      exact addSafetyWrappers_sorted _ _ horch.1 fun p hp => (horch.2 p hp).2
    | httpError s b =>
      exact addSafetyWrappers_sorted _ _ horch.1 fun p hp => (horch.2 p hp).2
    | success t =>
      have hmerge := mergeEnhancements_sorted (orchestrateRequest ctx userRequest)
        (parseEnhancedResponse t) horch.1 horch.2 (hrem t rfl)
      exact addSafetyWrappers_sorted _ _ hmerge.1 hmerge.2

/-- C9 counterexample. -/
theorem analyzeRequest_order_cex :
    ((EnhancedAIAnalysisEngine.analyzeRequest none "update the user profile api endpoint"
        (some "key") (RemoteOutcome.success body9)).prompts.map
      fun p => (jsOrQ p.phase, jsOrQ p.subPhase))
      = [(1, 0), (2, 0), (3, 0), (4, 0), (100, 0), (99, 0)]
    ∧ ¬ List.Sorted promptLE
        (EnhancedAIAnalysisEngine.analyzeRequest none "update the user profile api endpoint"
          (some "key") (RemoteOutcome.success body9)).prompts := by
  constructor
  · rfl
  · decide

theorem analyzeRequest_sorted_witness :
    List.Sorted promptLE
      (EnhancedAIAnalysisEngine.analyzeRequest none "update the user profile api endpoint"
        (some "key") (RemoteOutcome.success bodyOk9)).prompts :=
  analyzeRequest_sorted none "update the user profile api endpoint" (some "key")
    (RemoteOutcome.success bodyOk9)
    (by
      intro t ht p hp
      cases ht
      revert p hp
      decide)
